import Mathlib

/-!
# Server-side IO completion ports (`src/module/completion.c`)

A shallow embedding of the completion-port object of the server: the packet
queue, the depth counter, the object operations and the five request handlers.

* A queue (`struct list_head queue`) is the list of its packets, head first.
* `unsigned int depth` is a natural number; `depth++` and `depth--` are taken
  modulo `2^32`.
* Pointers to `struct uk_completion` are addresses into `server.mem`.
* The generic object layer (handle table, named-object directory, allocator) is
  not part of `completion.c`.  What its functions return during one request is
  a value of `kernel`; the calls the handlers make that only concern that layer
  (`uk_wake_up`, `free`, `release_object`) are recorded, in order, in
  `server.trace`.
-/

namespace Completion

/-! ## Constants of the Windows headers -/

/-- Access right `IO_COMPLETION_QUERY_STATE`, with its value in `winnt.h` (the
Windows headers are not among the sources). -/
def IO_COMPLETION_QUERY_STATE : Nat := 0x0001

/-- Access right `IO_COMPLETION_MODIFY_STATE`, with its value in `winnt.h`. -/
def IO_COMPLETION_MODIFY_STATE : Nat := 0x0002

/-- Status `STATUS_PENDING`, with its value in `ntstatus.h`. -/
def STATUS_PENDING : Nat := 0x00000103

/-- Status `STATUS_OBJECT_NAME_EXISTS`, with its value in `ntstatus.h`. -/
def STATUS_OBJECT_NAME_EXISTS : Nat := 0x40000000

/-- Status `STATUS_ACCESS_DENIED`, with its value in `ntstatus.h`. -/
def STATUS_ACCESS_DENIED : Nat := 0xC0000022

/-- Status `STATUS_INVALID_HANDLE`, with its value in `ntstatus.h`. -/
def STATUS_INVALID_HANDLE : Nat := 0xC0000008

/-- Number of values of an `unsigned int`. -/
def UINT_RANGE : Nat := 2 ^ 32

/-- The C statement `x++` on an `unsigned int`. -/
def uint_incr (x : Nat) : Nat := (x + 1) % UINT_RANGE

/-- The C statement `x--` on an `unsigned int`. -/
def uint_decr (x : Nat) : Nat := (x + (UINT_RANGE - 1)) % UINT_RANGE

/-! ## Data model -/

/-- The payload of `struct comp_msg` (the `queue_entry` linkage is the position
of the packet in the queue). -/
structure comp_msg where
  ckey : Nat
  cvalue : Nat
  information : Nat
  status : Nat
  deriving DecidableEq, Repr

/-- The fields of `struct uk_completion` that `completion.c` owns. -/
structure uk_completion where
  queue : List comp_msg
  depth : Nat
  deriving DecidableEq, Repr

/-- A `struct object *`: a completion port or a directory, by address. -/
inductive object where
  | completion (ptr : Nat)
  | directory (ptr : Nat)
  deriving DecidableEq, Repr

/-- Calls into the generic object layer, as they are issued. -/
inductive event where
  | uk_wake_up (obj : object) (max : Nat)
  | free (msg : comp_msg)
  | release_object (obj : object)
  deriving DecidableEq, Repr

/-- State of the server seen by `completion.c`: the completion ports by address,
the error status of the current thread (`set_error` / `get_error`), and the
calls issued so far. -/
structure server where
  mem : Nat → uk_completion
  error : Nat
  trace : List event

/-- Result of `mem_alloc`: a block, or `NULL` together with the status the
allocator itself left on the error channel, if it left one. -/
inductive alloc_result where
  | ok
  | failed (err : Option Nat)
  deriving DecidableEq, Repr

/-- What the functions of the generic object layer return during one request.
`get_handle_obj handle access` and `get_directory_obj handle access` stand for
the lookups in the handle table of the current process (an object address, or
the status of the failure); `create_named_object_dir root name attr` gives the
object, if any, and the error status it leaves; `open_object_dir root name attr`
the object or the status of the failure; `alloc_handle obj access attr` the new
handle or the status of the failure. -/
structure kernel where
  get_handle_obj : Nat → Nat → Except Nat Nat
  get_directory_obj : Nat → Nat → Except Nat Nat
  create_named_object_dir : Option Nat → List Nat → Nat → Option Nat × Nat
  open_object_dir : Option Nat → List Nat → Nat → Except Nat Nat
  alloc_handle : Nat → Nat → Nat → Except Nat Nat
  mem_alloc : alloc_result

/-! ## Requests and replies -/

structure create_completion_request where
  access : Nat
  attributes : Nat
  concurrent : Nat
  rootdir : Nat
  name : List Nat

structure create_completion_reply where
  handle : Nat
  deriving DecidableEq, Repr

structure open_completion_request where
  access : Nat
  attributes : Nat
  rootdir : Nat
  name : List Nat

structure open_completion_reply where
  handle : Nat
  deriving DecidableEq, Repr

structure add_completion_request where
  handle : Nat
  ckey : Nat
  cvalue : Nat
  information : Nat
  status : Nat

structure remove_completion_request where
  handle : Nat

structure remove_completion_reply where
  ckey : Nat
  cvalue : Nat
  information : Nat
  status : Nat
  deriving DecidableEq, Repr

structure query_completion_request where
  handle : Nat

structure query_completion_reply where
  depth : Nat
  deriving DecidableEq, Repr

/-! ## List helpers (`wine/list.h`)

The queue is an intrusive doubly linked list; its helpers are macros and inline
functions of `wine/list.h`, which is not among the sources.  The queue is the
ordered sequence of its packets, head first. -/

/-- Modelled from the spec: `list_init` of `wine/list.h` leaves the empty queue
of a fresh port. -/
def list_init : List comp_msg := []

/-- Modelled from the spec: `list_empty` of `wine/list.h` tests that the ordered
sequence holds no packet. -/
def list_empty (list : List comp_msg) : Bool := list.isEmpty

/-- Modelled from the spec: `list_head` of `wine/list.h` gives the head packet of
the sequence, `none` standing for `NULL` on an empty one. -/
def list_head (list : List comp_msg) : Option comp_msg := list.head?

/-- Modelled from the spec: `list_remove` of `wine/list.h` unlinks one element,
here named by its position `entry`, and keeps the order of the others. -/
def list_remove (list : List comp_msg) (entry : Nat) : List comp_msg := list.eraseIdx entry

/-- Modelled from the spec: `wine_list_add_tail` of `wine/list.h` appends `elem`
at the tail of the sequence. -/
def wine_list_add_tail (list : List comp_msg) (elem : comp_msg) : List comp_msg := list ++ [elem]

/-! ## Error channel and recorded calls

These functions belong to the generic object layer.  `set_error` and
`get_error` write and read the status of the current request; the other three
act on state that `completion.c` never reads, so the call itself is recorded. -/

/-- The call `set_error( err )`: the status of the current request becomes `err`. -/
def set_error (err : Nat) (s : server) : server := { s with error := err }

/-- The call `get_error()`: the status of the current request. -/
def get_error (s : server) : Nat := s.error

/-- The call `uk_wake_up( obj, max )`, recorded. -/
def uk_wake_up (obj : object) (max : Nat) (s : server) : server :=
  { s with trace := s.trace ++ [event.uk_wake_up obj max] }

/-- The call `free( msg )`, recorded with the packet that is released. -/
def free (msg : comp_msg) (s : server) : server :=
  { s with trace := s.trace ++ [event.free msg] }

/-- The call `release_object( obj )`, recorded. -/
def release_object (obj : object) (s : server) : server :=
  { s with trace := s.trace ++ [event.release_object obj] }

/-! ## Object operations -/

/-- The function `completion_signaled`: the queue is not empty. -/
def completion_signaled (completion : uk_completion) : Bool :=
  !list_empty completion.queue

/-- The function `create_completion`: the object of the directory, initialised
unless the directory reported `STATUS_OBJECT_NAME_EXISTS`. -/
def create_completion (k : kernel) (root : Option Nat) (name : List Nat) (attr : Nat)
    (_concurrent : Nat) (s : server) : Option Nat × server :=
  match k.create_named_object_dir root name attr with
  | (some completion, err) =>
    let s1 := set_error err s
    if get_error s1 ≠ STATUS_OBJECT_NAME_EXISTS then
      (some completion,
        { s1 with mem := Function.update s1.mem completion { queue := list_init, depth := 0 } })
    else
      (some completion, s1)
  | (none, err) => (none, set_error err s)

/-- The function `get_completion_obj`: lookup of the handle as a completion. -/
def get_completion_obj (k : kernel) (handle : Nat) (access : Nat) : Except Nat Nat :=
  k.get_handle_obj handle access

/-- The function `add_completion`. -/
def add_completion (k : kernel) (completion : Nat) (ckey cvalue status information : Nat)
    (s : server) : server :=
  match k.mem_alloc with
  | alloc_result.failed err => set_error (err.getD s.error) s
  | alloc_result.ok =>
    let msg : comp_msg :=
      { ckey := ckey, cvalue := cvalue, status := status, information := information }
    let c := s.mem completion
    let s1 : server :=
      { s with mem := Function.update s.mem completion
                  { queue := wine_list_add_tail c.queue msg, depth := uint_incr c.depth } }
    uk_wake_up (object.completion completion) 1 s1

/-- The loop `LIST_FOR_EACH_ENTRY_SAFE( tmp, next, &completion->queue, ... )` of
`completion_destroy`: the entries are visited from the head, the successor
being read before the body `free( tmp )` runs. -/
def completion_destroy_loop : List comp_msg → server → server
  | [], s => s
  | tmp :: next, s => completion_destroy_loop next (free tmp s)

/-- The function `completion_destroy`. -/
def completion_destroy (completion : Nat) (s : server) : server :=
  completion_destroy_loop (s.mem completion).queue s

/-! ## Access rights -/

/-- Generic right `GENERIC_READ`, with its value in `winnt.h`. -/
def GENERIC_READ : Nat := 0x80000000

/-- Generic right `GENERIC_WRITE`, with its value in `winnt.h`. -/
def GENERIC_WRITE : Nat := 0x40000000

/-- Generic right `GENERIC_EXECUTE`, with its value in `winnt.h`. -/
def GENERIC_EXECUTE : Nat := 0x20000000

/-- Generic right `GENERIC_ALL`, with its value in `winnt.h`. -/
def GENERIC_ALL : Nat := 0x10000000

/-- Right `STANDARD_RIGHTS_READ` (`READ_CONTROL`), with its value in `winnt.h`. -/
def STANDARD_RIGHTS_READ : Nat := 0x00020000

/-- Right `STANDARD_RIGHTS_WRITE` (`READ_CONTROL`), with its value in `winnt.h`. -/
def STANDARD_RIGHTS_WRITE : Nat := 0x00020000

/-- Right `STANDARD_RIGHTS_EXECUTE` (`READ_CONTROL`), with its value in `winnt.h`. -/
def STANDARD_RIGHTS_EXECUTE : Nat := 0x00020000

/-- Rights `STANDARD_RIGHTS_ALL`, with their value in `winnt.h`. -/
def STANDARD_RIGHTS_ALL : Nat := 0x001F0000

/-- Right `SYNCHRONIZE`, with its value in `winnt.h`. -/
def SYNCHRONIZE : Nat := 0x00100000

/-- Rights `IO_COMPLETION_ALL_ACCESS`
(`STANDARD_RIGHTS_REQUIRED | SYNCHRONIZE | 0x3`), with their value in `winnt.h`. -/
def IO_COMPLETION_ALL_ACCESS : Nat := 0x001F0003

/-- The C expression `~x` on an `unsigned int`. -/
def uint_not (x : Nat) : Nat := (UINT_RANGE - 1) ^^^ (x % UINT_RANGE)

/-- The function `completion_map_access`; the four tests run one after the
other on the mask as the earlier ones left it. -/
def completion_map_access (_obj : object) (access : Nat) : Nat :=
  let access1 :=
    if access &&& GENERIC_READ ≠ 0 then
      access ||| (STANDARD_RIGHTS_READ ||| SYNCHRONIZE ||| IO_COMPLETION_QUERY_STATE)
    else access
  let access2 :=
    if access1 &&& GENERIC_WRITE ≠ 0 then access1 ||| STANDARD_RIGHTS_WRITE else access1
  let access3 :=
    if access2 &&& GENERIC_EXECUTE ≠ 0 then access2 ||| STANDARD_RIGHTS_EXECUTE else access2
  let access4 :=
    if access3 &&& GENERIC_ALL ≠ 0 then
      access3 ||| (STANDARD_RIGHTS_ALL ||| IO_COMPLETION_ALL_ACCESS)
    else access3
  access4 &&& uint_not (GENERIC_READ ||| GENERIC_WRITE ||| GENERIC_EXECUTE ||| GENERIC_ALL)

/-- The mask that the expansion of the generic rights is described to give: the
mask with the four generic bits cleared, together with the specific rights of
each generic right that is set in it. -/
def expanded_access (a : Nat) : Nat :=
  (a &&& uint_not (GENERIC_READ ||| GENERIC_WRITE ||| GENERIC_EXECUTE ||| GENERIC_ALL)) |||
    (if a &&& GENERIC_READ ≠ 0 then
      STANDARD_RIGHTS_READ ||| SYNCHRONIZE ||| IO_COMPLETION_QUERY_STATE else 0) |||
    (if a &&& GENERIC_WRITE ≠ 0 then STANDARD_RIGHTS_WRITE else 0) |||
    (if a &&& GENERIC_EXECUTE ≠ 0 then STANDARD_RIGHTS_EXECUTE else 0) |||
    (if a &&& GENERIC_ALL ≠ 0 then STANDARD_RIGHTS_ALL ||| IO_COMPLETION_ALL_ACCESS else 0)

/-! ## Request handlers -/

/-- Handler `DECL_HANDLER(create_completion)`. -/
def req_create_completion (k : kernel) (req : create_completion_request)
    (_reply : create_completion_reply) (s : server) : create_completion_reply × server :=
  let reply0 : create_completion_reply := { handle := 0 }
  let root : Except Nat (Option Nat) :=
    if req.rootdir ≠ 0 then
      match k.get_directory_obj req.rootdir 0 with
      | Except.ok dir => Except.ok (some dir)
      | Except.error e => Except.error e
    else Except.ok none
  match root with
  | Except.error e => (reply0, set_error e s)
  | Except.ok root =>
    let r : create_completion_reply × server :=
      match create_completion k root req.name req.attributes req.concurrent s with
      | (some completion, s1) =>
        match k.alloc_handle completion req.access req.attributes with
        | Except.ok h => ({ handle := h }, release_object (object.completion completion) s1)
        | Except.error e =>
          ({ handle := 0 }, release_object (object.completion completion) (set_error e s1))
      | (none, s1) => (reply0, s1)
    match root with
    | some dir => (r.1, release_object (object.directory dir) r.2)
    | none => r

/-- Handler `DECL_HANDLER(open_completion)`. -/
def req_open_completion (k : kernel) (req : open_completion_request)
    (_reply : open_completion_reply) (s : server) : open_completion_reply × server :=
  let reply0 : open_completion_reply := { handle := 0 }
  let root : Except Nat (Option Nat) :=
    if req.rootdir ≠ 0 then
      match k.get_directory_obj req.rootdir 0 with
      | Except.ok dir => Except.ok (some dir)
      | Except.error e => Except.error e
    else Except.ok none
  match root with
  | Except.error e => (reply0, set_error e s)
  | Except.ok root =>
    let r : open_completion_reply × server :=
      match k.open_object_dir root req.name req.attributes with
      | Except.ok completion =>
        match k.alloc_handle completion req.access req.attributes with
        | Except.ok h => ({ handle := h }, release_object (object.completion completion) s)
        | Except.error e =>
          ({ handle := 0 }, release_object (object.completion completion) (set_error e s))
      | Except.error e => (reply0, set_error e s)
    match root with
    | some dir => (r.1, release_object (object.directory dir) r.2)
    | none => r

/-- Handler `DECL_HANDLER(add_completion)`. -/
def req_add_completion (k : kernel) (req : add_completion_request) (s : server) : server :=
  match get_completion_obj k req.handle IO_COMPLETION_MODIFY_STATE with
  | Except.error e => set_error e s
  | Except.ok completion =>
    release_object (object.completion completion)
      (add_completion k completion req.ckey req.cvalue req.status req.information s)

/-- Handler `DECL_HANDLER(remove_completion)`. -/
def req_remove_completion (k : kernel) (req : remove_completion_request)
    (reply : remove_completion_reply) (s : server) : remove_completion_reply × server :=
  match get_completion_obj k req.handle IO_COMPLETION_MODIFY_STATE with
  | Except.error e => (reply, set_error e s)
  | Except.ok completion =>
    match list_head (s.mem completion).queue with
    | none => (reply, release_object (object.completion completion) (set_error STATUS_PENDING s))
    | some msg =>
      let c := s.mem completion
      let s1 : server :=
        { s with mem := Function.update s.mem completion
                    { queue := list_remove c.queue 0, depth := uint_decr c.depth } }
      let reply1 : remove_completion_reply :=
        { ckey := msg.ckey, cvalue := msg.cvalue, status := msg.status,
          information := msg.information }
      (reply1, release_object (object.completion completion) (free msg s1))

/-- Handler `DECL_HANDLER(query_completion)`. -/
def req_query_completion (k : kernel) (req : query_completion_request)
    (reply : query_completion_reply) (s : server) : query_completion_reply × server :=
  match get_completion_obj k req.handle IO_COMPLETION_QUERY_STATE with
  | Except.error e => (reply, set_error e s)
  | Except.ok completion =>
    ({ depth := (s.mem completion).depth }, release_object (object.completion completion) s)

/-! ## Sequences of requests -/

/-- The packet a successful `add_completion` queues for the given request. -/
def msg_of_request (req : add_completion_request) : comp_msg :=
  { ckey := req.ckey, cvalue := req.cvalue, status := req.status,
    information := req.information }

/-- The reply that carries the four fields of a packet. -/
def reply_of_msg (msg : comp_msg) : remove_completion_reply :=
  { ckey := msg.ckey, cvalue := msg.cvalue, status := msg.status,
    information := msg.information }

/-- One call of `add_completion` per packet of the list, in order. -/
def add_all (k : kernel) (completion : Nat) : List comp_msg → server → server
  | [], s => s
  | msg :: rest, s =>
    add_all k completion rest
      (add_completion k completion msg.ckey msg.cvalue msg.status msg.information s)

/-- The handler `req_remove_completion` run `n` times in a row on the same
request; the replies in order and the final state. -/
def remove_many (k : kernel) (req : remove_completion_request)
    (reply : remove_completion_reply) : Nat → server → List remove_completion_reply × server
  | 0, s => ([], s)
  | n + 1, s =>
    let r := req_remove_completion k req reply s
    let rest := remove_many k req reply n r.2
    (r.1 :: rest.1, rest.2)

/-- A request of one of the five kinds. -/
inductive request where
  | create_completion (req : create_completion_request)
  | open_completion (req : open_completion_request)
  | add_completion (req : add_completion_request)
  | remove_completion (req : remove_completion_request)
  | query_completion (req : query_completion_request)

/-- The state after the handler of one request has run, with the results of the
object layer during that request. -/
def step (k : kernel) (r : request) (s : server) : server :=
  match r with
  | request.create_completion req => (req_create_completion k req { handle := 0 } s).2
  | request.open_completion req => (req_open_completion k req { handle := 0 } s).2
  | request.add_completion req => req_add_completion k req s
  | request.remove_completion req =>
    (req_remove_completion k req { ckey := 0, cvalue := 0, information := 0, status := 0 } s).2
  | request.query_completion req => (req_query_completion k req { depth := 0 } s).2

/-- The state after a sequence of requests. -/
def run : List (kernel × request) → server → server
  | [], s => s
  | (k, r) :: rest, s => run rest (step k r s)

/-- The relation between the two fields of a port that every reachable state
satisfies: `depth` is the number of queued packets, as an `unsigned int`. -/
def depth_matches (c : uk_completion) : Prop :=
  c.depth = c.queue.length % UINT_RANGE

instance (c : uk_completion) : Decidable (depth_matches c) := by
  unfold depth_matches; infer_instance

/-! ## Concrete values used to instantiate the results -/

/-- A server in which no port holds a packet. -/
def idle_server : server :=
  { mem := fun _ => { queue := [], depth := 0 }, error := 0, trace := [] }

/-- Results of the object layer when every call succeeds: each handle denotes
the object at address `p`, the directory creates a new object at `p`, and the
allocator returns a block. -/
def granting_kernel (p : Nat) : kernel :=
  { get_handle_obj := fun _ _ => Except.ok p
    get_directory_obj := fun _ _ => Except.ok (p + 1)
    create_named_object_dir := fun _ _ _ => (some p, 0)
    open_object_dir := fun _ _ _ => Except.ok p
    alloc_handle := fun _ _ _ => Except.ok 4
    mem_alloc := alloc_result.ok }

/-- Modelled from the spec: an entry of the Handle Table, which is defined in
the handle layer and not in `completion.c`.  A handle carries an object
reference and a granted access mask fixed at creation. -/
structure handle_entry where
  handle : Nat
  obj : Nat
  access : Nat
  deriving DecidableEq, Repr

/-- Modelled from the spec: the Handle Table lookup
`(handle, requested_access) → object | AccessDenied` of the handle layer, which
is not in `completion.c`.  The lookup gives the object when every requested
right is among the granted ones, and fails with AccessDenied otherwise; a
handle with no entry is reported invalid. -/
def handle_table_lookup (table : List handle_entry) (handle access : Nat) : Except Nat Nat :=
  match table.find? (fun e => e.handle == handle) with
  | none => Except.error STATUS_INVALID_HANDLE
  | some e =>
    if access &&& e.access = access then Except.ok e.obj
    else Except.error STATUS_ACCESS_DENIED

/-- Results of the object layer with `get_handle_obj` given by a handle table;
no directory is reachable and the allocator returns a block. -/
def table_kernel (table : List handle_entry) : kernel :=
  { get_handle_obj := handle_table_lookup table
    get_directory_obj := fun _ _ => Except.error STATUS_INVALID_HANDLE
    create_named_object_dir := fun _ _ _ => (none, STATUS_ACCESS_DENIED)
    open_object_dir := fun _ _ _ => Except.error STATUS_INVALID_HANDLE
    alloc_handle := fun _ _ _ => Except.error STATUS_INVALID_HANDLE
    mem_alloc := alloc_result.ok }

/-- The request `AddCompletion(handle 4, key 1, value 100, status 0, information 10)`. -/
def post_one : add_completion_request :=
  { handle := 4, ckey := 1, cvalue := 100, information := 10, status := 0 }

/-- The request `AddCompletion(handle 4, key 2, value 200, status 0, information 20)`. -/
def post_two : add_completion_request :=
  { handle := 4, ckey := 2, cvalue := 200, information := 20, status := 0 }

/-- The state right after `create_completion` has created a new port at address 0
in `idle_server`. -/
def fresh_server : server :=
  (create_completion (granting_kernel 0) none [] 0 0 idle_server).2

/-- The state reached from `fresh_server` by `n` requests `post_one`, each served
through a valid handle and with a successful allocation. -/
@[irreducible] def posts_server (n : Nat) : server :=
  run (List.replicate n (granting_kernel 0, request.add_completion post_one)) fresh_server

/-- The state reached from `fresh_server` by `n` successful calls of
`add_completion` with the packet of `post_one`, followed by `m` requests
`RemoveCompletion` through a valid handle. -/
@[irreducible] def posts_removes_server (n m : Nat) : server :=
  (remove_many (granting_kernel 0) { handle := 4 }
    { ckey := 0, cvalue := 0, information := 0, status := 0 } m
    (add_all (granting_kernel 0) 0 (List.replicate n (msg_of_request post_one)) fresh_server)).2

/-! ## The Named Object Directory, from the specification

`create_named_object_dir` and `open_object_dir` belong to the directory layer,
which is not among the sources.  The definitions of this section follow the
description of the Named Object Directory. -/

/-- Status `STATUS_OBJECT_TYPE_MISMATCH`, with its value in `ntstatus.h`: the
condition NameCollisionWrongType. -/
def STATUS_OBJECT_TYPE_MISMATCH : Nat := 0xC0000024

/-- Status `STATUS_OBJECT_NAME_NOT_FOUND`, with its value in `ntstatus.h`: the
condition ObjectNotFound. -/
def STATUS_OBJECT_NAME_NOT_FOUND : Nat := 0xC0000034

/-- Status `STATUS_SUCCESS`, with its value in `ntstatus.h`: the condition Created. -/
def STATUS_SUCCESS : Nat := 0

/-- Modelled from the spec: the type identity of a kernel object, given by its
operation table; `completion_ops` is the table of completion ports and the
other tables belong to object kinds that are not among the sources. -/
inductive object_ops where
  | completion_ops
  | other_ops (kind : Nat)
  deriving DecidableEq, Repr

/-- Modelled from the spec: an entry of the Named Object Directory, which is not
among the sources: a name, optionally rooted under a parent directory, bound
to an object of some type. -/
structure dir_entry where
  root : Option Nat
  name : List Nat
  ops : object_ops
  obj : Nat
  deriving DecidableEq, Repr

/-- Modelled from the spec: the case folding behind "name comparison is
case-insensitive" of the Named Object Directory, on the letters A to Z. -/
def fold_case (c : Nat) : Nat := if 65 ≤ c ∧ c ≤ 90 then c + 32 else c

/-- Modelled from the spec: the lookup of the Named Object Directory, which is
not among the sources: the entry with the given parent directory whose name
matches, names being compared case-insensitively. -/
def dir_find (dir : List dir_entry) (root : Option Nat) (name : List Nat) : Option dir_entry :=
  dir.find? (fun e => e.root == root && e.name.map fold_case == name.map fold_case)

/-- Modelled from the spec: create-or-open of the Named Object Directory, the
missing `create_named_object_dir`.  If an entry of matching name and compatible
type exists, it is returned with the condition AlreadyExists; if the existing
entry is of an incompatible type, the call fails with NameCollisionWrongType;
otherwise a new object (at address `fresh`) is allocated and inserted, with the
condition Created.  The result is the object if any, the status, and the
directory afterwards. -/
def dir_create_named_object (dir : List dir_entry) (fresh : Nat) (root : Option Nat)
    (name : List Nat) (ops : object_ops) : (Option Nat × Nat) × List dir_entry :=
  match dir_find dir root name with
  | some e =>
    if e.ops = ops then ((some e.obj, STATUS_OBJECT_NAME_EXISTS), dir)
    else ((none, STATUS_OBJECT_TYPE_MISMATCH), dir)
  | none =>
    ((some fresh, STATUS_SUCCESS),
      dir ++ [{ root := root, name := name, ops := ops, obj := fresh }])

/-- Modelled from the spec: the directory lookup behind Open, the missing
`open_object_dir`: the object bound to the name, ObjectNotFound if the name is
absent, NameCollisionWrongType if it is bound to an object of another type. -/
def dir_open_object (dir : List dir_entry) (root : Option Nat) (name : List Nat)
    (ops : object_ops) : Except Nat Nat :=
  match dir_find dir root name with
  | some e => if e.ops = ops then Except.ok e.obj else Except.error STATUS_OBJECT_TYPE_MISMATCH
  | none => Except.error STATUS_OBJECT_NAME_NOT_FOUND

/-- The directory that a request names: none when `rootdir` is 0, else what
`get_directory_obj` gives for the handle, as the handlers of CreateCompletion
and OpenCompletion compute it. -/
def root_of_request (k : kernel) (rootdir : Nat) : Except Nat (Option Nat) :=
  if rootdir ≠ 0 then
    match k.get_directory_obj rootdir 0 with
    | Except.ok dir => Except.ok (some dir)
    | Except.error e => Except.error e
  else Except.ok none

/-- Results of the object layer during one request when the directory layer is
the Named Object Directory in state `dir`, a new object would be allocated at
address `fresh`, no root directory handle resolves, and a new handle would get
the number `handle`. -/
def directory_kernel (dir : List dir_entry) (fresh handle : Nat) : kernel :=
  { get_handle_obj := fun _ _ => Except.error STATUS_INVALID_HANDLE
    get_directory_obj := fun _ _ => Except.error STATUS_INVALID_HANDLE
    create_named_object_dir := fun root name _ =>
      (dir_create_named_object dir fresh root name object_ops.completion_ops).1
    open_object_dir := fun root name _ =>
      dir_open_object dir root name object_ops.completion_ops
    alloc_handle := fun _ _ _ => Except.ok handle
    mem_alloc := alloc_result.ok }

/-! ## The Wait/Signal Engine, from the specification

`add_queue`, `remove_queue` and `uk_wake_up` belong to the wait layer, which is
not among the sources.  The definitions of this section follow the description
of the Wait/Signal Engine, for threads that each wait on one completion port. -/

/-- Modelled from the spec: the Wait Registrations on one object, kept by the
Wait/Signal Engine, which is not among the sources: the threads blocked on the
object in FIFO registration order, and the threads woken so far in the order
of their wake-up. -/
structure wait_queue where
  waiting : List Nat
  woken : List Nat
  deriving DecidableEq, Repr

/-- Modelled from the spec: `add_queue` of the Wait/Signal Engine: a thread that
starts to wait registers behind the earlier registrations. -/
def add_queue (thread : Nat) (w : wait_queue) : wait_queue :=
  { w with waiting := w.waiting ++ [thread] }

/-- Modelled from the spec: the evaluation that "signal this object" runs over
the current registrants, earliest first: a wait that can be satisfied (the
object is signaled) wakes its thread and its registration is removed, until
`max` threads have been woken.  The result is the threads woken, in order, and
the registrations that remain. -/
def wake_up_loop (signaled : Bool) : Nat → List Nat → List Nat × List Nat
  | _, [] => ([], [])
  | 0, thread :: rest => ([], thread :: rest)
  | max + 1, thread :: rest =>
    if signaled then
      ((wake_up_loop signaled max rest).1.cons thread, (wake_up_loop signaled max rest).2)
    else
      ((wake_up_loop signaled (max + 1) rest).1,
        (wake_up_loop signaled (max + 1) rest).2.cons thread)

/-- Modelled from the spec: the wake primitive "signal object, wake one FIFO
waiter" of the Wait/Signal Engine, the missing `uk_wake_up( obj, max )`. -/
def wake_up (signaled : Bool) (max : Nat) (w : wait_queue) : wait_queue :=
  { waiting := (wake_up_loop signaled max w.waiting).2
    woken := w.woken ++ (wake_up_loop signaled max w.waiting).1 }

/-- The Wait/Signal Engine serving, in order, the recorded calls `uk_wake_up` that
name the port at address `p`, whose `signaled` operation gives `signaled`. -/
def deliver (p : Nat) (signaled : Bool) : List event → wait_queue → wait_queue
  | [], w => w
  | event.uk_wake_up (object.completion q) max :: rest, w =>
    deliver p signaled rest (if q = p then wake_up signaled max w else w)
  | event.uk_wake_up (object.directory _) _ :: rest, w => deliver p signaled rest w
  | event.free _ :: rest, w => deliver p signaled rest w
  | event.release_object _ :: rest, w => deliver p signaled rest w

/-- One call of `add_completion` on the port at `p`, with the Wait/Signal Engine
serving the calls it issues; `completion_signaled` is evaluated on the port as
`add_completion` leaves it, the wake-up being its last statement. -/
def post_and_wake (k : kernel) (p : Nat) (msg : comp_msg) (sw : server × wait_queue) :
    server × wait_queue :=
  let s1 := add_completion k p msg.ckey msg.cvalue msg.status msg.information sw.1
  (s1, deliver p (completion_signaled (s1.mem p)) (s1.trace.drop sw.1.trace.length) sw.2)

/-- One `post_and_wake` per packet of the list, in order. -/
def posts_and_wakes (k : kernel) (p : Nat) : List comp_msg → server × wait_queue →
    server × wait_queue
  | [], sw => sw
  | msg :: rest, sw => posts_and_wakes k p rest (post_and_wake k p msg sw)

/-- The registrations after the threads of the list have started to wait, in
order, on an object that nobody waited on. -/
def register_all (threads : List Nat) : wait_queue :=
  threads.foldl (fun w t => add_queue t w) { waiting := [], woken := [] }

/-! ## Requests with what the client observes -/

/-- What a handler hands back to the client, by kind of request. -/
inductive response where
  | create_completion (reply : create_completion_reply)
  | open_completion (reply : open_completion_reply)
  | add_completion
  | remove_completion (reply : remove_completion_reply)
  | query_completion (reply : query_completion_reply)
  deriving DecidableEq, Repr

/-- The handler of one request run on `s`: its reply and the state it leaves. -/
def respond (k : kernel) (r : request) (s : server) : response × server :=
  match r with
  | request.create_completion req =>
    (response.create_completion (req_create_completion k req { handle := 0 } s).1,
      (req_create_completion k req { handle := 0 } s).2)
  | request.open_completion req =>
    (response.open_completion (req_open_completion k req { handle := 0 } s).1,
      (req_open_completion k req { handle := 0 } s).2)
  | request.add_completion req => (response.add_completion, req_add_completion k req s)
  | request.remove_completion req =>
    (response.remove_completion
        (req_remove_completion k req
          { ckey := 0, cvalue := 0, information := 0, status := 0 } s).1,
      (req_remove_completion k req
          { ckey := 0, cvalue := 0, information := 0, status := 0 } s).2)
  | request.query_completion req =>
    (response.query_completion (req_query_completion k req { depth := 0 } s).1,
      (req_query_completion k req { depth := 0 } s).2)

/-- A sequence of requests run from `s`: for each request its reply and the status
it ends with, and the final state. -/
def run_responses : List (kernel × request) → server → List (response × Nat) × server
  | [], s => ([], s)
  | (k, r) :: rest, s =>
    (((respond k r s).1, (respond k r s).2.error) :: (run_responses rest (respond k r s).2).1,
      (run_responses rest (respond k r s).2).2)

/-- Modelled from the spec: the dispatch layer, which is not among the sources,
reports failure on a per-request status channel: each request starts with a
clear status. -/
def clear_error (s : server) : server := set_error STATUS_SUCCESS s

/-- A request of a client on one port: Post with the four values, Remove, Query. -/
inductive port_request where
  | post (ckey cvalue status information : Nat)
  | remove
  | query
  deriving DecidableEq, Repr

/-- What has gone into a port and what has come out of it: the packets posted so
far, the packets that Removes have replied so far, each in order, and the
state of the server. -/
structure ledger where
  posted : List comp_msg
  removed : List remove_completion_reply
  state : server

/-- One request on the port through `handle`, entered in the ledger.  A Post
enters its packet; a Remove enters its reply unless it ends with
`STATUS_PENDING`. -/
def ledger_step (k : kernel) (handle : Nat) (op : port_request) (l : ledger) : ledger :=
  match op with
  | port_request.post ckey cvalue status information =>
    { posted := l.posted ++
        [{ ckey := ckey, cvalue := cvalue, status := status, information := information }]
      removed := l.removed
      state := req_add_completion k
        { handle := handle, ckey := ckey, cvalue := cvalue, status := status,
          information := information } (clear_error l.state) }
  | port_request.remove =>
    { posted := l.posted
      removed :=
        if (req_remove_completion k { handle := handle }
            { ckey := 0, cvalue := 0, information := 0, status := 0 }
            (clear_error l.state)).2.error = STATUS_PENDING then l.removed
        else l.removed ++
          [(req_remove_completion k { handle := handle }
            { ckey := 0, cvalue := 0, information := 0, status := 0 }
            (clear_error l.state)).1]
      state := (req_remove_completion k { handle := handle }
        { ckey := 0, cvalue := 0, information := 0, status := 0 } (clear_error l.state)).2 }
  | port_request.query =>
    { posted := l.posted
      removed := l.removed
      state := (req_query_completion k { handle := handle } { depth := 0 }
        (clear_error l.state)).2 }

/-- A sequence of requests on the port, entered in the ledger. -/
def ledger_run (k : kernel) (handle : Nat) : List port_request → ledger → ledger
  | [], l => l
  | op :: rest, l => ledger_run k handle rest (ledger_step k handle op l)

/-- The calls that were issued between the state `before` and the state `after`. -/
def issued (before after : server) : List event :=
  after.trace.drop before.trace.length

/-- The objects that the calls `release_object` of a list of calls name, in order. -/
def releases : List event → List object
  | [] => []
  | event.release_object obj :: rest => obj :: releases rest
  | event.uk_wake_up _ _ :: rest => releases rest
  | event.free _ :: rest => releases rest

/-- The statement `if (root) release_object( root );` that ends the handlers of
CreateCompletion and OpenCompletion. -/
def release_root (root : Option Nat) (s : server) : server :=
  match root with
  | some dir => release_object (object.directory dir) s
  | none => s

theorem uint_incr_mod (n : Nat) : uint_incr (n % UINT_RANGE) = (n + 1) % UINT_RANGE := by
  unfold uint_incr
  exact Nat.mod_add_mod n UINT_RANGE 1

theorem uint_decr_mod (n : Nat) : uint_decr ((n + 1) % UINT_RANGE) = n % UINT_RANGE := by
  unfold uint_decr UINT_RANGE
  omega

theorem depth_matches_init : depth_matches { queue := list_init, depth := 0 } := by
  simp [depth_matches, list_init]

theorem depth_matches_add (c : uk_completion) (msg : comp_msg) (h : depth_matches c) :
    depth_matches { queue := wine_list_add_tail c.queue msg, depth := uint_incr c.depth } := by
  unfold depth_matches at *
  simp only [wine_list_add_tail, List.length_append, List.length_singleton]
  rw [h]
  exact uint_incr_mod _

theorem depth_matches_remove (c : uk_completion) (msg : comp_msg) (h : depth_matches c)
    (hq : list_head c.queue = some msg) :
    depth_matches { queue := list_remove c.queue 0, depth := uint_decr c.depth } := by
  unfold depth_matches at *
  cases hc : c.queue with
  | nil => simp [list_head, hc] at hq
  | cons a rest =>
    rw [hc] at h
    simp only [list_remove, List.eraseIdx_cons_zero, List.length_cons] at *
    rw [h]
    exact uint_decr_mod _

/-! ### Effect of the operations on the memory of the ports -/

theorem create_completion_fresh (k : kernel) (root : Option Nat) (name : List Nat)
    (attr concurrent : Nat) (s : server) (p e : Nat)
    (hdir : k.create_named_object_dir root name attr = (some p, e))
    (hnew : e ≠ STATUS_OBJECT_NAME_EXISTS) :
    create_completion k root name attr concurrent s =
      (some p, { mem := Function.update s.mem p { queue := [], depth := 0 },
                 error := e, trace := s.trace }) := by
  simp [create_completion, hdir, set_error, get_error, hnew, list_init]

theorem create_completion_depth_matches (k : kernel) (root : Option Nat) (name : List Nat)
    (attr concurrent : Nat) (s : server) (p : Nat) (h : depth_matches (s.mem p)) :
    depth_matches ((create_completion k root name attr concurrent s).2.mem p) := by
  unfold create_completion
  rcases hdir : k.create_named_object_dir root name attr with ⟨_ | c, e⟩
  · simpa [set_error] using h
  · by_cases he : e = STATUS_OBJECT_NAME_EXISTS
    · simpa [set_error, get_error, he] using h
    · by_cases hp : p = c
      · subst hp
        simpa [set_error, get_error, he] using depth_matches_init
      · simpa [set_error, get_error, he, Function.update_noteq hp] using h

theorem add_completion_ok (k : kernel) (p ckey cvalue status information : Nat) (s : server)
    (halloc : k.mem_alloc = alloc_result.ok) :
    add_completion k p ckey cvalue status information s =
      { mem := Function.update s.mem p
          { queue := (s.mem p).queue ++
              [{ ckey := ckey, cvalue := cvalue, status := status, information := information }],
            depth := uint_incr (s.mem p).depth },
        error := s.error,
        trace := s.trace ++ [event.uk_wake_up (object.completion p) 1] } := by
  simp [add_completion, halloc, uk_wake_up, wine_list_add_tail]

theorem add_completion_depth_matches (k : kernel) (c ckey cvalue status information : Nat)
    (s : server) (p : Nat) (h : depth_matches (s.mem p)) :
    depth_matches ((add_completion k c ckey cvalue status information s).mem p) := by
  unfold add_completion
  cases k.mem_alloc with
  | failed err => simpa [set_error] using h
  | ok =>
    by_cases hp : p = c
    · subst hp
      simpa [uk_wake_up] using depth_matches_add _ _ h
    · simpa [uk_wake_up, Function.update_noteq hp] using h

theorem req_add_completion_ok (k : kernel) (req : add_completion_request) (s : server) (p : Nat)
    (hobj : k.get_handle_obj req.handle IO_COMPLETION_MODIFY_STATE = Except.ok p)
    (halloc : k.mem_alloc = alloc_result.ok) :
    req_add_completion k req s =
      { mem := Function.update s.mem p
          { queue := (s.mem p).queue ++ [msg_of_request req],
            depth := uint_incr (s.mem p).depth },
        error := s.error,
        trace := s.trace ++ [event.uk_wake_up (object.completion p) 1,
                             event.release_object (object.completion p)] } := by
  simp [req_add_completion, get_completion_obj, hobj, add_completion_ok, halloc,
    release_object, msg_of_request]

theorem req_remove_completion_empty (k : kernel) (req : remove_completion_request)
    (reply : remove_completion_reply) (s : server) (p : Nat)
    (hobj : k.get_handle_obj req.handle IO_COMPLETION_MODIFY_STATE = Except.ok p)
    (hq : (s.mem p).queue = []) :
    req_remove_completion k req reply s =
      (reply, { mem := s.mem, error := STATUS_PENDING,
                trace := s.trace ++ [event.release_object (object.completion p)] }) := by
  simp [req_remove_completion, get_completion_obj, hobj, hq, list_head, release_object,
    set_error]

theorem req_remove_completion_cons (k : kernel) (req : remove_completion_request)
    (reply : remove_completion_reply) (s : server) (p : Nat) (msg : comp_msg)
    (rest : List comp_msg)
    (hobj : k.get_handle_obj req.handle IO_COMPLETION_MODIFY_STATE = Except.ok p)
    (hq : (s.mem p).queue = msg :: rest) :
    req_remove_completion k req reply s =
      (reply_of_msg msg,
        { mem := Function.update s.mem p { queue := rest, depth := uint_decr (s.mem p).depth },
          error := s.error,
          trace := s.trace ++ [event.free msg,
                               event.release_object (object.completion p)] }) := by
  simp [req_remove_completion, get_completion_obj, hobj, hq, list_head, list_remove,
    release_object, free, reply_of_msg]

theorem req_query_completion_ok (k : kernel) (req : query_completion_request)
    (reply : query_completion_reply) (s : server) (p : Nat)
    (hobj : k.get_handle_obj req.handle IO_COMPLETION_QUERY_STATE = Except.ok p) :
    req_query_completion k req reply s =
      ({ depth := (s.mem p).depth },
        { mem := s.mem, error := s.error,
          trace := s.trace ++ [event.release_object (object.completion p)] }) := by
  simp [req_query_completion, get_completion_obj, hobj, release_object]

theorem req_add_completion_depth_matches (k : kernel) (req : add_completion_request)
    (s : server) (p : Nat) (h : depth_matches (s.mem p)) :
    depth_matches ((req_add_completion k req s).mem p) := by
  unfold req_add_completion
  cases get_completion_obj k req.handle IO_COMPLETION_MODIFY_STATE with
  | error e => simpa [set_error] using h
  | ok c =>
    simpa [release_object] using add_completion_depth_matches k c _ _ _ _ s p h

theorem req_remove_completion_depth_matches (k : kernel) (req : remove_completion_request)
    (reply : remove_completion_reply) (s : server) (p : Nat) (h : depth_matches (s.mem p)) :
    depth_matches ((req_remove_completion k req reply s).2.mem p) := by
  unfold req_remove_completion
  cases get_completion_obj k req.handle IO_COMPLETION_MODIFY_STATE with
  | error e => simpa [set_error] using h
  | ok c =>
    dsimp only
    cases hh : list_head (s.mem c).queue with
    | none => simpa [release_object, set_error] using h
    | some msg =>
      by_cases hp : p = c
      · subst hp
        simpa [release_object, free] using depth_matches_remove _ msg h hh
      · simpa [release_object, free, Function.update_noteq hp] using h

theorem req_query_completion_mem (k : kernel) (req : query_completion_request)
    (reply : query_completion_reply) (s : server) :
    (req_query_completion k req reply s).2.mem = s.mem := by
  unfold req_query_completion
  cases get_completion_obj k req.handle IO_COMPLETION_QUERY_STATE <;>
    simp [set_error, release_object]

theorem req_open_completion_mem (k : kernel) (req : open_completion_request)
    (reply : open_completion_reply) (s : server) :
    (req_open_completion k req reply s).2.mem = s.mem := by
  unfold req_open_completion
  by_cases hr : req.rootdir = 0
  · simp only [hr, ne_eq, not_true_eq_false, if_false]
    cases k.open_object_dir none req.name req.attributes with
    | error e => simp [set_error]
    | ok c =>
      dsimp only
      cases k.alloc_handle c req.access req.attributes <;>
        simp [set_error, release_object]
  · simp only [hr, ne_eq, not_false_eq_true, if_true]
    cases k.get_directory_obj req.rootdir 0 with
    | error e => simp [set_error]
    | ok dir =>
      dsimp only
      cases k.open_object_dir (some dir) req.name req.attributes with
      | error e => simp [set_error, release_object]
      | ok c =>
        dsimp only
        cases k.alloc_handle c req.access req.attributes <;>
          simp [set_error, release_object]

theorem req_create_completion_depth_matches (k : kernel) (req : create_completion_request)
    (reply : create_completion_reply) (s : server) (p : Nat) (h : depth_matches (s.mem p)) :
    depth_matches ((req_create_completion k req reply s).2.mem p) := by
  unfold req_create_completion
  by_cases hr : req.rootdir = 0
  · simp only [hr, ne_eq, not_true_eq_false, if_false]
    have hc := create_completion_depth_matches k none req.name req.attributes req.concurrent s p h
    rcases hcc : create_completion k none req.name req.attributes req.concurrent s with ⟨_ | c, s1⟩
    · simpa [hcc] using hc
    · rw [hcc] at hc
      dsimp only
      cases k.alloc_handle c req.access req.attributes <;>
        simpa [set_error, release_object] using hc
  · simp only [hr, ne_eq, not_false_eq_true, if_true]
    cases k.get_directory_obj req.rootdir 0 with
    | error e => simpa [set_error] using h
    | ok dir =>
      dsimp only
      have hc := create_completion_depth_matches k (some dir) req.name req.attributes
        req.concurrent s p h
      rcases hcc : create_completion k (some dir) req.name req.attributes req.concurrent s
        with ⟨_ | c, s1⟩
      · simpa [hcc, release_object] using hc
      · rw [hcc] at hc
        dsimp only
        cases k.alloc_handle c req.access req.attributes <;>
          simpa [set_error, release_object] using hc

theorem step_depth_matches (k : kernel) (r : request) (s : server) (p : Nat)
    (h : depth_matches (s.mem p)) : depth_matches ((step k r s).mem p) := by
  cases r with
  | create_completion req => exact req_create_completion_depth_matches k req _ s p h
  | open_completion req =>
    simp only [step]
    rw [req_open_completion_mem]
    exact h
  | add_completion req => exact req_add_completion_depth_matches k req s p h
  | remove_completion req => exact req_remove_completion_depth_matches k req _ s p h
  | query_completion req =>
    simp only [step]
    rw [req_query_completion_mem]
    exact h

theorem run_depth_matches (ops : List (kernel × request)) (s : server) (p : Nat)
    (h : depth_matches (s.mem p)) : depth_matches ((run ops s).mem p) := by
  induction ops generalizing s with
  | nil => exact h
  | cons op rest ih =>
    obtain ⟨k, r⟩ := op
    exact ih (step k r s) (step_depth_matches k r s p h)

/-! ### Runs of posts and removes -/

theorem add_all_depth_matches (k : kernel) (c : Nat) (pkts : List comp_msg) (s : server)
    (p : Nat) (h : depth_matches (s.mem p)) : depth_matches ((add_all k c pkts s).mem p) := by
  induction pkts generalizing s with
  | nil => exact h
  | cons msg rest ih =>
    exact ih _ (add_completion_depth_matches k c _ _ _ _ s p h)

theorem add_all_queue (k : kernel) (p : Nat) (pkts : List comp_msg) (s : server)
    (halloc : k.mem_alloc = alloc_result.ok) :
    ((add_all k p pkts s).mem p).queue = (s.mem p).queue ++ pkts := by
  induction pkts generalizing s with
  | nil => simp [add_all]
  | cons msg rest ih =>
    simp only [add_all]
    rw [ih, add_completion_ok k p _ _ _ _ s halloc]
    simp

theorem add_all_error (k : kernel) (p : Nat) (pkts : List comp_msg) (s : server)
    (halloc : k.mem_alloc = alloc_result.ok) :
    (add_all k p pkts s).error = s.error := by
  induction pkts generalizing s with
  | nil => rfl
  | cons msg rest ih =>
    simp only [add_all]
    rw [ih, add_completion_ok k p _ _ _ _ s halloc]

theorem remove_many_spec (k : kernel) (req : remove_completion_request)
    (reply : remove_completion_reply) (p : Nat)
    (hobj : k.get_handle_obj req.handle IO_COMPLETION_MODIFY_STATE = Except.ok p)
    (m : Nat) (s : server) (hm : m ≤ (s.mem p).queue.length) :
    (remove_many k req reply m s).1 = ((s.mem p).queue.take m).map reply_of_msg ∧
    ((remove_many k req reply m s).2.mem p).queue = (s.mem p).queue.drop m ∧
    (remove_many k req reply m s).2.error = s.error := by
  induction m generalizing s with
  | zero => simp [remove_many]
  | succ n ih =>
    cases hq : (s.mem p).queue with
    | nil => simp [hq] at hm
    | cons msg rest =>
      have hstep := req_remove_completion_cons k req reply s p msg rest hobj hq
      have hn : n ≤ rest.length := by simpa [hq] using hm
      simp only [remove_many, hstep]
      have := ih { mem := Function.update s.mem p { queue := rest, depth := uint_decr (s.mem p).depth },
                   error := s.error,
                   trace := s.trace ++ [event.free msg,
                                        event.release_object (object.completion p)] }
        (by simpa using hn)
      simpa using this

theorem remove_many_depth_matches (k : kernel) (req : remove_completion_request)
    (reply : remove_completion_reply) (m : Nat) (s : server) (p : Nat)
    (h : depth_matches (s.mem p)) :
    depth_matches ((remove_many k req reply m s).2.mem p) := by
  induction m generalizing s with
  | zero => exact h
  | succ n ih =>
    exact ih _ (req_remove_completion_depth_matches k req reply s p h)

theorem posts_then_removes (kc ka kr : kernel) (root : Option Nat) (name : List Nat)
    (attr concurrent : Nat) (s0 : server) (p e : Nat) (pkts : List comp_msg)
    (req : remove_completion_request) (reply : remove_completion_reply) (m : Nat)
    (hdir : kc.create_named_object_dir root name attr = (some p, e))
    (hnew : e ≠ STATUS_OBJECT_NAME_EXISTS)
    (halloc : ka.mem_alloc = alloc_result.ok)
    (hobj : kr.get_handle_obj req.handle IO_COMPLETION_MODIFY_STATE = Except.ok p)
    (hm : m ≤ pkts.length) :
    (remove_many kr req reply m
        (add_all ka p pkts (create_completion kc root name attr concurrent s0).2)).1
      = (pkts.take m).map reply_of_msg ∧
    ((remove_many kr req reply m
        (add_all ka p pkts (create_completion kc root name attr concurrent s0).2)).2.mem p).queue
      = pkts.drop m ∧
    depth_matches ((remove_many kr req reply m
        (add_all ka p pkts (create_completion kc root name attr concurrent s0).2)).2.mem p) ∧
    (remove_many kr req reply m
        (add_all ka p pkts (create_completion kc root name attr concurrent s0).2)).2.error = e := by
  have hfresh := create_completion_fresh kc root name attr concurrent s0 p e hdir hnew
  have hq : ((add_all ka p pkts (create_completion kc root name attr concurrent s0).2).mem p).queue
      = pkts := by
    rw [add_all_queue ka p pkts _ halloc, hfresh]
    simp
  have he : (add_all ka p pkts (create_completion kc root name attr concurrent s0).2).error = e := by
    rw [add_all_error ka p pkts _ halloc, hfresh]
  have hinv : depth_matches ((create_completion kc root name attr concurrent s0).2.mem p) := by
    rw [hfresh]
    simp [depth_matches]
  have hspec := remove_many_spec kr req reply p hobj m
    (add_all ka p pkts (create_completion kc root name attr concurrent s0).2) (by rw [hq]; exact hm)
  rw [hq] at hspec
  refine ⟨hspec.1, hspec.2.1, ?_, ?_⟩
  · exact remove_many_depth_matches kr req reply m _ p (add_all_depth_matches ka p pkts _ p hinv)
  · rw [hspec.2.2, he]

theorem run_replicate_add (k : kernel) (req : add_completion_request) (p : Nat)
    (hobj : k.get_handle_obj req.handle IO_COMPLETION_MODIFY_STATE = Except.ok p)
    (halloc : k.mem_alloc = alloc_result.ok) (n : Nat) (s : server) :
    ((run (List.replicate n (k, request.add_completion req)) s).mem p).queue
      = (s.mem p).queue ++ List.replicate n (msg_of_request req) := by
  induction n generalizing s with
  | zero => simp [run]
  | succ n ih =>
    rw [List.replicate_succ, run, ih, List.replicate_succ]
    simp [step, req_add_completion_ok k req s p hobj halloc]

theorem fresh_server_port : fresh_server.mem 0 = { queue := [], depth := 0 } := by
  unfold fresh_server
  rw [create_completion_fresh (granting_kernel 0) none [] 0 0 idle_server 0 0 rfl (by decide)]
  simp

theorem posts_server_reachable (n : Nat) :
    posts_server n =
      run (List.replicate n (granting_kernel 0, request.add_completion post_one))
        (create_completion (granting_kernel 0) none [] 0 0 idle_server).2 := by
  unfold posts_server fresh_server
  rfl

theorem posts_server_queue (n : Nat) :
    ((posts_server n).mem 0).queue = List.replicate n (msg_of_request post_one) := by
  unfold posts_server
  rw [run_replicate_add (granting_kernel 0) post_one 0 rfl rfl, fresh_server_port]
  exact List.nil_append _

theorem posts_server_depth (n : Nat) : ((posts_server n).mem 0).depth = n % UINT_RANGE := by
  have h : depth_matches ((posts_server n).mem 0) := by
    unfold posts_server
    apply run_depth_matches
    rw [fresh_server_port]
    exact depth_matches_init
  unfold depth_matches at h
  rw [h, posts_server_queue, List.length_replicate]

theorem posts_removes_server_depth (n m : Nat) (hm : m ≤ n) :
    ((posts_removes_server n m).mem 0).depth = (n - m) % UINT_RANGE := by
  have h := posts_then_removes (granting_kernel 0) (granting_kernel 0) (granting_kernel 0)
    none [] 0 0 idle_server 0 0 (List.replicate n (msg_of_request post_one)) { handle := 4 }
    { ckey := 0, cvalue := 0, information := 0, status := 0 } m rfl (by decide) rfl rfl
    (by rw [List.length_replicate]; exact hm)
  obtain ⟨-, hq, hd, -⟩ := h
  unfold depth_matches at hd
  rw [hq, List.length_drop, List.length_replicate] at hd
  unfold posts_removes_server fresh_server
  exact hd

theorem run_replicate_add_error (k : kernel) (req : add_completion_request) (p : Nat)
    (hobj : k.get_handle_obj req.handle IO_COMPLETION_MODIFY_STATE = Except.ok p)
    (halloc : k.mem_alloc = alloc_result.ok) (n : Nat) (s : server) :
    (run (List.replicate n (k, request.add_completion req)) s).error = s.error := by
  induction n generalizing s with
  | zero => rfl
  | succ n ih =>
    rw [List.replicate_succ, run, ih]
    simp [step, req_add_completion_ok k req s p hobj halloc]

theorem posts_server_error (n : Nat) : (posts_server n).error = 0 := by
  unfold posts_server
  rw [run_replicate_add_error (granting_kernel 0) post_one 0 rfl rfl]
  unfold fresh_server
  rw [create_completion_fresh (granting_kernel 0) none [] 0 0 idle_server 0 0 rfl (by decide)]

theorem depth_matches_small (c : uk_completion) (h : depth_matches c)
    (hlen : c.queue.length < UINT_RANGE) : c.depth = c.queue.length := by
  unfold depth_matches at h
  rw [h]
  exact Nat.mod_eq_of_lt hlen

theorem reachable_depth_matches (kc : kernel) (root : Option Nat) (name : List Nat)
    (attr concurrent : Nat) (s0 : server) (p e : Nat) (ops : List (kernel × request))
    (hdir : kc.create_named_object_dir root name attr = (some p, e))
    (hnew : e ≠ STATUS_OBJECT_NAME_EXISTS) :
    depth_matches ((run ops (create_completion kc root name attr concurrent s0).2).mem p) := by
  apply run_depth_matches
  rw [create_completion_fresh kc root name attr concurrent s0 p e hdir hnew]
  simp [depth_matches]

theorem req_remove_completion_cons_fields (k : kernel) (req : remove_completion_request)
    (reply : remove_completion_reply) (s : server) (p : Nat) (msg : comp_msg)
    (rest : List comp_msg)
    (hobj : k.get_handle_obj req.handle IO_COMPLETION_MODIFY_STATE = Except.ok p)
    (hq : (s.mem p).queue = msg :: rest) :
    (req_remove_completion k req reply s).1 = reply_of_msg msg ∧
    ((req_remove_completion k req reply s).2.mem p).queue = rest ∧
    ((req_remove_completion k req reply s).2.mem p).depth = uint_decr (s.mem p).depth ∧
    (req_remove_completion k req reply s).2.error = s.error ∧
    (req_remove_completion k req reply s).2.trace
      = s.trace ++ [event.free msg, event.release_object (object.completion p)] := by
  rw [req_remove_completion_cons k req reply s p msg rest hobj hq]
  exact ⟨rfl, by simp, by simp, rfl, rfl⟩

theorem add_completion_congr (k1 k2 : kernel) (p ckey cvalue status information : Nat)
    (s : server) (h : k1.mem_alloc = k2.mem_alloc) :
    add_completion k1 p ckey cvalue status information s
      = add_completion k2 p ckey cvalue status information s := by
  unfold add_completion
  rw [h]

theorem handle_table_lookup_denied (table : List handle_entry) (handle access : Nat)
    (entry : handle_entry)
    (hfind : table.find? (fun x => x.handle == handle) = some entry)
    (hacc : access &&& entry.access ≠ access) :
    handle_table_lookup table handle access = Except.error STATUS_ACCESS_DENIED := by
  unfold handle_table_lookup
  rw [hfind]
  simp [hacc]

/-! ## The claims -/

/-- C1: starting from a freshly created port, once the packets `pkts` have been
added by successful `add_completion` calls, `m ≤ n` RemoveCompletion requests
in a row (no Post in between) reply with the four fields of the first `m`
packets in insertion order: the `i`-th reply carries the fields of the `i`-th
packet, and the packets not yet removed stay queued in their order. -/
theorem remove_replies_in_insertion_order (kc ka kr : kernel) (root : Option Nat)
    (name : List Nat) (attr concurrent : Nat) (s0 : server) (p e : Nat)
    (pkts : List comp_msg) (req : remove_completion_request)
    (reply : remove_completion_reply) (m : Nat)
    (hdir : kc.create_named_object_dir root name attr = (some p, e))
    (hnew : e ≠ STATUS_OBJECT_NAME_EXISTS)
    (halloc : ka.mem_alloc = alloc_result.ok)
    (hobj : kr.get_handle_obj req.handle IO_COMPLETION_MODIFY_STATE = Except.ok p)
    (hm : m ≤ pkts.length) :
    (remove_many kr req reply m
        (add_all ka p pkts (create_completion kc root name attr concurrent s0).2)).1
      = (pkts.take m).map reply_of_msg ∧
    (∀ i, i < m →
      (remove_many kr req reply m
          (add_all ka p pkts (create_completion kc root name attr concurrent s0).2)).1[i]?
        = (pkts[i]?).map reply_of_msg) ∧
    ((remove_many kr req reply m
        (add_all ka p pkts (create_completion kc root name attr concurrent s0).2)).2.mem p).queue
      = pkts.drop m := by
  obtain ⟨hr, hq, -, -⟩ := posts_then_removes kc ka kr root name attr concurrent s0 p e pkts req
    reply m hdir hnew halloc hobj hm
  refine ⟨hr, ?_, hq⟩
  intro i hi
  rw [hr, List.getElem?_map, List.getElem?_take_of_lt hi]

theorem remove_replies_in_insertion_order_witness :
    (remove_many (granting_kernel 0) { handle := 4 }
        { ckey := 0, cvalue := 0, information := 0, status := 0 } 1
        (add_all (granting_kernel 0) 0 [msg_of_request post_one, msg_of_request post_two]
          (create_completion (granting_kernel 0) none [] 0 0 idle_server).2)).1
      = [{ ckey := 1, cvalue := 100, information := 10, status := 0 }] :=
  (remove_replies_in_insertion_order (granting_kernel 0) (granting_kernel 0) (granting_kernel 0)
    none [] 0 0 idle_server 0 0 [msg_of_request post_one, msg_of_request post_two]
    { handle := 4 } { ckey := 0, cvalue := 0, information := 0, status := 0 } 1
    rfl (by decide) rfl rfl (by decide)).1

/-- C2 (as amended): starting from a freshly created port, after `n` successful
Posts followed by `m ≤ n` Removes the depth field, and hence the value replied
by QueryCompletion, equals `(n - m) mod 2^32`; it equals `n - m` whenever
`n - m < 2^32`. -/
theorem depth_after_posts_and_removes (kc ka kr kq : kernel) (root : Option Nat)
    (name : List Nat) (attr concurrent : Nat) (s0 : server) (p e : Nat)
    (pkts : List comp_msg) (req : remove_completion_request)
    (reply : remove_completion_reply) (m : Nat) (qreq : query_completion_request)
    (qreply : query_completion_reply)
    (hdir : kc.create_named_object_dir root name attr = (some p, e))
    (hnew : e ≠ STATUS_OBJECT_NAME_EXISTS)
    (halloc : ka.mem_alloc = alloc_result.ok)
    (hobj : kr.get_handle_obj req.handle IO_COMPLETION_MODIFY_STATE = Except.ok p)
    (hqry : kq.get_handle_obj qreq.handle IO_COMPLETION_QUERY_STATE = Except.ok p)
    (hm : m ≤ pkts.length) :
    ((remove_many kr req reply m
        (add_all ka p pkts (create_completion kc root name attr concurrent s0).2)).2.mem p).depth
      = (pkts.length - m) % UINT_RANGE ∧
    (req_query_completion kq qreq qreply
        (remove_many kr req reply m
          (add_all ka p pkts (create_completion kc root name attr concurrent s0).2)).2).1.depth
      = (pkts.length - m) % UINT_RANGE ∧
    (pkts.length - m < UINT_RANGE →
      ((remove_many kr req reply m
          (add_all ka p pkts (create_completion kc root name attr concurrent s0).2)).2.mem p).depth
        = pkts.length - m) := by
  obtain ⟨-, hq, hd, -⟩ := posts_then_removes kc ka kr root name attr concurrent s0 p e pkts req
    reply m hdir hnew halloc hobj hm
  unfold depth_matches at hd
  rw [hq, List.length_drop] at hd
  refine ⟨hd, ?_, ?_⟩
  · rw [req_query_completion_ok kq qreq qreply _ p hqry]
    exact hd
  · intro hlt
    rw [hd]
    exact Nat.mod_eq_of_lt hlt

theorem depth_after_posts_and_removes_witness :
    ((remove_many (granting_kernel 0) { handle := 4 }
        { ckey := 0, cvalue := 0, information := 0, status := 0 } 1
        (add_all (granting_kernel 0) 0 [msg_of_request post_one, msg_of_request post_two]
          (create_completion (granting_kernel 0) none [] 0 0 idle_server).2)).2.mem 0).depth
      = (2 - 1) % UINT_RANGE :=
  (depth_after_posts_and_removes (granting_kernel 0) (granting_kernel 0) (granting_kernel 0)
    (granting_kernel 0) none [] 0 0 idle_server 0 0
    [msg_of_request post_one, msg_of_request post_two]
    { handle := 4 } { ckey := 0, cvalue := 0, information := 0, status := 0 } 1
    { handle := 4 } { depth := 0 } rfl (by decide) rfl rfl rfl (by decide)).1

/-- C2 fails as stated: after `n = 2^32` successful Posts and `m = 0` Removes on a
fresh port the depth field is `0`, not `n - m = 2^32`. -/
theorem depth_after_posts_and_removes_counterexample :
    ((posts_removes_server 4294967296 0).mem 0).depth = 0 ∧
    ((posts_removes_server 4294967296 0).mem 0).depth ≠ 4294967296 - 0 := by
  have h := posts_removes_server_depth 4294967296 0 (Nat.zero_le _)
  have h0 : (4294967296 - 0) % UINT_RANGE = 0 := by decide
  rw [h0] at h
  refine ⟨h, ?_⟩
  rw [h]
  decide

/-- C3 (as amended): in every state reachable from a fresh creation of the port
in which depth is 0 and the queue holds fewer than `2^32` packets (so that the
queue is empty), RemoveCompletion through a valid handle sets the status to
`STATUS_PENDING`, hands back the reply as it received it (no field written)
and leaves the memory of every port, queue and depth, unchanged. -/
theorem remove_on_empty_port_is_pending (kc k : kernel) (root : Option Nat) (name : List Nat)
    (attr concurrent : Nat) (s0 : server) (p e : Nat) (ops : List (kernel × request))
    (req : remove_completion_request) (reply : remove_completion_reply)
    (hdir : kc.create_named_object_dir root name attr = (some p, e))
    (hnew : e ≠ STATUS_OBJECT_NAME_EXISTS)
    (hobj : k.get_handle_obj req.handle IO_COMPLETION_MODIFY_STATE = Except.ok p)
    (hdepth : ((run ops (create_completion kc root name attr concurrent s0).2).mem p).depth = 0)
    (hlen : ((run ops (create_completion kc root name attr concurrent s0).2).mem p).queue.length
      < UINT_RANGE) :
    req_remove_completion k req reply (run ops (create_completion kc root name attr concurrent s0).2)
      = (reply,
          { mem := (run ops (create_completion kc root name attr concurrent s0).2).mem,
            error := STATUS_PENDING,
            trace := (run ops (create_completion kc root name attr concurrent s0).2).trace ++
              [event.release_object (object.completion p)] }) := by
  have hinv := reachable_depth_matches kc root name attr concurrent s0 p e ops hdir hnew
  have hz := depth_matches_small _ hinv hlen
  rw [hdepth] at hz
  exact req_remove_completion_empty k req reply _ p hobj (List.length_eq_zero.mp hz.symm)

theorem remove_on_empty_port_is_pending_witness :
    (req_remove_completion (granting_kernel 0) { handle := 4 }
        { ckey := 7, cvalue := 7, information := 7, status := 7 }
        (run [(granting_kernel 0, request.add_completion post_one),
              (granting_kernel 0, request.remove_completion { handle := 4 })]
          (create_completion (granting_kernel 0) none [] 0 0 idle_server).2)).2.error
      = STATUS_PENDING :=
  congrArg (fun r => r.2.error)
    (remove_on_empty_port_is_pending (granting_kernel 0) (granting_kernel 0) none [] 0 0
      idle_server 0 0
      [(granting_kernel 0, request.add_completion post_one),
       (granting_kernel 0, request.remove_completion { handle := 4 })]
      { handle := 4 } { ckey := 7, cvalue := 7, information := 7, status := 7 }
      rfl (by decide) rfl rfl (by decide))

/-- C3 fails as stated: the state reached from a fresh port by `2^32` successful
AddCompletion requests has depth 0, yet RemoveCompletion replies with the head
packet, leaves the status at 0 instead of `STATUS_PENDING`, and changes depth
to `2^32 - 1`. -/
theorem remove_on_empty_port_is_pending_counterexample :
    posts_server 4294967296 =
      run (List.replicate 4294967296 (granting_kernel 0, request.add_completion post_one))
        (create_completion (granting_kernel 0) none [] 0 0 idle_server).2 ∧
    ((posts_server 4294967296).mem 0).depth = 0 ∧
    (req_remove_completion (granting_kernel 0) { handle := 4 }
        { ckey := 0, cvalue := 0, information := 0, status := 0 } (posts_server 4294967296)).1
      = { ckey := 1, cvalue := 100, information := 10, status := 0 } ∧
    (req_remove_completion (granting_kernel 0) { handle := 4 }
        { ckey := 0, cvalue := 0, information := 0, status := 0 } (posts_server 4294967296)).2.error
      ≠ STATUS_PENDING ∧
    ((req_remove_completion (granting_kernel 0) { handle := 4 }
        { ckey := 0, cvalue := 0, information := 0, status := 0 }
        (posts_server 4294967296)).2.mem 0).depth = 4294967295 := by
  have hd : ((posts_server 4294967296).mem 0).depth = 0 :=
    (posts_server_depth 4294967296).trans (by decide)
  have hq : ((posts_server 4294967296).mem 0).queue
      = msg_of_request post_one :: List.replicate 4294967295 (msg_of_request post_one) :=
    (posts_server_queue 4294967296).trans
      (List.replicate_succ (msg_of_request post_one) 4294967295)
  obtain ⟨h1, -, h3, h4, -⟩ := req_remove_completion_cons_fields (granting_kernel 0)
    { handle := 4 } { ckey := 0, cvalue := 0, information := 0, status := 0 }
    (posts_server 4294967296) 0 (msg_of_request post_one)
    (List.replicate 4294967295 (msg_of_request post_one)) rfl hq
  refine ⟨posts_server_reachable _, hd, ?_, ?_, ?_⟩
  · rw [h1]
    rfl
  · rw [h4, posts_server_error]
    decide
  · rw [h3, hd]
    decide

/-- C4 (as amended): for every state in which the queue of the port is non-empty,
RemoveCompletion through a valid handle replies with the four fields of the
head packet, leaves the rest of the queue in its order, decrements depth by one
modulo `2^32` (to `depth - 1` when `0 < depth < 2^32`, and from 0 to
`2^32 - 1`), does not touch the status, and frees the packet. -/
theorem remove_pops_head (k : kernel) (req : remove_completion_request)
    (reply : remove_completion_reply) (s : server) (p : Nat) (msg : comp_msg)
    (rest : List comp_msg)
    (hobj : k.get_handle_obj req.handle IO_COMPLETION_MODIFY_STATE = Except.ok p)
    (hq : (s.mem p).queue = msg :: rest) :
    (req_remove_completion k req reply s).1
      = { ckey := msg.ckey, cvalue := msg.cvalue, status := msg.status,
          information := msg.information } ∧
    ((req_remove_completion k req reply s).2.mem p).queue = rest ∧
    ((req_remove_completion k req reply s).2.mem p).depth = uint_decr (s.mem p).depth ∧
    (0 < (s.mem p).depth → (s.mem p).depth < UINT_RANGE →
      ((req_remove_completion k req reply s).2.mem p).depth + 1 = (s.mem p).depth) ∧
    ((s.mem p).depth = 0 →
      ((req_remove_completion k req reply s).2.mem p).depth = UINT_RANGE - 1) ∧
    (req_remove_completion k req reply s).2.error = s.error ∧
    (req_remove_completion k req reply s).2.trace
      = s.trace ++ [event.free msg, event.release_object (object.completion p)] := by
  obtain ⟨h1, h2, h3, h4, h5⟩ :=
    req_remove_completion_cons_fields k req reply s p msg rest hobj hq
  refine ⟨h1, h2, h3, ?_, ?_, h4, h5⟩
  · intro hpos hlt
    rw [h3]
    unfold uint_decr UINT_RANGE at *
    omega
  · intro hzero
    rw [h3, hzero]
    decide

theorem remove_pops_head_witness :
    (req_remove_completion (granting_kernel 0) { handle := 4 }
        { ckey := 0, cvalue := 0, information := 0, status := 0 }
        { mem := fun _ => { queue := [msg_of_request post_one, msg_of_request post_two],
                            depth := 2 },
          error := 0, trace := [] }).1
      = { ckey := 1, cvalue := 100, status := 0, information := 10 } :=
  (remove_pops_head (granting_kernel 0) { handle := 4 }
    { ckey := 0, cvalue := 0, information := 0, status := 0 }
    { mem := fun _ => { queue := [msg_of_request post_one, msg_of_request post_two],
                        depth := 2 },
      error := 0, trace := [] } 0 (msg_of_request post_one) [msg_of_request post_two]
    rfl rfl).1

/-- C4 fails as stated: in the state reached from a fresh port by `2^32` successful
Posts the queue is non-empty and depth is 0; RemoveCompletion then leaves depth
at `2^32 - 1`, which is not depth decremented by one. -/
theorem remove_pops_head_counterexample :
    posts_server 4294967296 =
      run (List.replicate 4294967296 (granting_kernel 0, request.add_completion post_one))
        (create_completion (granting_kernel 0) none [] 0 0 idle_server).2 ∧
    ((posts_server 4294967296).mem 0).queue
      = msg_of_request post_one :: List.replicate 4294967295 (msg_of_request post_one) ∧
    ((posts_server 4294967296).mem 0).depth = 0 ∧
    ((req_remove_completion (granting_kernel 0) { handle := 4 }
        { ckey := 0, cvalue := 0, information := 0, status := 0 }
        (posts_server 4294967296)).2.mem 0).depth = 4294967295 ∧
    ((req_remove_completion (granting_kernel 0) { handle := 4 }
        { ckey := 0, cvalue := 0, information := 0, status := 0 }
        (posts_server 4294967296)).2.mem 0).depth + 1
      ≠ ((posts_server 4294967296).mem 0).depth := by
  have hd : ((posts_server 4294967296).mem 0).depth = 0 :=
    (posts_server_depth 4294967296).trans (by decide)
  have hq : ((posts_server 4294967296).mem 0).queue
      = msg_of_request post_one :: List.replicate 4294967295 (msg_of_request post_one) :=
    (posts_server_queue 4294967296).trans
      (List.replicate_succ (msg_of_request post_one) 4294967295)
  have h3 := (req_remove_completion_cons_fields (granting_kernel 0) { handle := 4 }
    { ckey := 0, cvalue := 0, information := 0, status := 0 } (posts_server 4294967296) 0
    (msg_of_request post_one) (List.replicate 4294967295 (msg_of_request post_one)) rfl
    hq).2.2.1
  have hafter : ((req_remove_completion (granting_kernel 0) { handle := 4 }
      { ckey := 0, cvalue := 0, information := 0, status := 0 }
      (posts_server 4294967296)).2.mem 0).depth = 4294967295 := by
    rw [h3, hd]
    decide
  refine ⟨posts_server_reachable _, hq, hd, hafter, ?_⟩
  rw [hafter, hd]
  decide

/-- C6 (as amended): in every state reached from a fresh creation of the port by
any sequence of CreateCompletion, OpenCompletion, AddCompletion (allocation
succeeding or failing), RemoveCompletion and QueryCompletion requests, whatever
the object layer returns during each, the depth field equals the number of
packets in the queue modulo `2^32`; the two are equal whenever the queue holds
fewer than `2^32` packets. -/
theorem depth_is_queue_length_mod (kc : kernel) (root : Option Nat) (name : List Nat)
    (attr concurrent : Nat) (s0 : server) (p e : Nat) (ops : List (kernel × request))
    (hdir : kc.create_named_object_dir root name attr = (some p, e))
    (hnew : e ≠ STATUS_OBJECT_NAME_EXISTS) :
    ((run ops (create_completion kc root name attr concurrent s0).2).mem p).depth
      = ((run ops (create_completion kc root name attr concurrent s0).2).mem p).queue.length
          % UINT_RANGE ∧
    (((run ops (create_completion kc root name attr concurrent s0).2).mem p).queue.length
        < UINT_RANGE →
      ((run ops (create_completion kc root name attr concurrent s0).2).mem p).depth
        = ((run ops (create_completion kc root name attr concurrent s0).2).mem p).queue.length) := by
  have hinv := reachable_depth_matches kc root name attr concurrent s0 p e ops hdir hnew
  exact ⟨hinv, depth_matches_small _ hinv⟩

theorem depth_is_queue_length_mod_witness :
    ((run [(granting_kernel 0, request.add_completion post_one),
           (granting_kernel 0, request.query_completion { handle := 4 }),
           (granting_kernel 0, request.add_completion post_two),
           (granting_kernel 0, request.remove_completion { handle := 4 })]
        (create_completion (granting_kernel 0) none [] 0 0 idle_server).2).mem 0).depth
      = ((run [(granting_kernel 0, request.add_completion post_one),
               (granting_kernel 0, request.query_completion { handle := 4 }),
               (granting_kernel 0, request.add_completion post_two),
               (granting_kernel 0, request.remove_completion { handle := 4 })]
            (create_completion (granting_kernel 0) none [] 0 0 idle_server).2).mem 0).queue.length
          % UINT_RANGE :=
  (depth_is_queue_length_mod (granting_kernel 0) none [] 0 0 idle_server 0 0
    [(granting_kernel 0, request.add_completion post_one),
     (granting_kernel 0, request.query_completion { handle := 4 }),
     (granting_kernel 0, request.add_completion post_two),
     (granting_kernel 0, request.remove_completion { handle := 4 })] rfl (by decide)).1

/-- C6 fails as stated: in the state reached from a fresh port by `2^32` successful
AddCompletion requests the queue holds `2^32` packets and depth is 0. -/
theorem depth_is_queue_length_counterexample :
    posts_server 4294967296 =
      run (List.replicate 4294967296 (granting_kernel 0, request.add_completion post_one))
        (create_completion (granting_kernel 0) none [] 0 0 idle_server).2 ∧
    ((posts_server 4294967296).mem 0).queue.length = 4294967296 ∧
    ((posts_server 4294967296).mem 0).depth
      ≠ ((posts_server 4294967296).mem 0).queue.length := by
  have hd : ((posts_server 4294967296).mem 0).depth = 0 :=
    (posts_server_depth 4294967296).trans (by decide)
  have hl : ((posts_server 4294967296).mem 0).queue.length = 4294967296 := by
    rw [posts_server_queue, List.length_replicate]
  refine ⟨posts_server_reachable _, hl, ?_⟩
  rw [hd, hl]
  decide

/-- C7 (as amended): in every reachable state `completion_signaled` is true if and
only if the queue of the port is non-empty; this is the same as `depth > 0` in
every reachable state whose queue holds fewer than `2^32` packets. -/
theorem signaled_iff_queue_nonempty (kc : kernel) (root : Option Nat) (name : List Nat)
    (attr concurrent : Nat) (s0 : server) (p e : Nat) (ops : List (kernel × request))
    (hdir : kc.create_named_object_dir root name attr = (some p, e))
    (hnew : e ≠ STATUS_OBJECT_NAME_EXISTS) :
    (completion_signaled ((run ops (create_completion kc root name attr concurrent s0).2).mem p)
        = true ↔
      ((run ops (create_completion kc root name attr concurrent s0).2).mem p).queue ≠ []) ∧
    (((run ops (create_completion kc root name attr concurrent s0).2).mem p).queue.length
        < UINT_RANGE →
      (completion_signaled ((run ops (create_completion kc root name attr concurrent s0).2).mem p)
          = true ↔
        0 < ((run ops (create_completion kc root name attr concurrent s0).2).mem p).depth)) := by
  have hinv := reachable_depth_matches kc root name attr concurrent s0 p e ops hdir hnew
  generalize (run ops (create_completion kc root name attr concurrent s0).2).mem p = c at hinv
  have hsig : completion_signaled c = true ↔ c.queue ≠ [] := by
    cases hq : c.queue <;> simp [completion_signaled, list_empty, hq]
  refine ⟨hsig, ?_⟩
  intro hlen
  rw [hsig, depth_matches_small c hinv hlen, List.length_pos]

theorem signaled_iff_queue_nonempty_witness :
    (completion_signaled
        ((run [(granting_kernel 0, request.add_completion post_one)]
          (create_completion (granting_kernel 0) none [] 0 0 idle_server).2).mem 0) = true ↔
      ((run [(granting_kernel 0, request.add_completion post_one)]
          (create_completion (granting_kernel 0) none [] 0 0 idle_server).2).mem 0).queue ≠ []) :=
  (signaled_iff_queue_nonempty (granting_kernel 0) none [] 0 0 idle_server 0 0
    [(granting_kernel 0, request.add_completion post_one)] rfl (by decide)).1

/-- C7 fails as stated: in the state reached from a fresh port by `2^32` successful
AddCompletion requests `completion_signaled` is true while depth is 0. -/
theorem signaled_iff_depth_positive_counterexample :
    posts_server 4294967296 =
      run (List.replicate 4294967296 (granting_kernel 0, request.add_completion post_one))
        (create_completion (granting_kernel 0) none [] 0 0 idle_server).2 ∧
    completion_signaled ((posts_server 4294967296).mem 0) = true ∧
    ¬ 0 < ((posts_server 4294967296).mem 0).depth := by
  have hd : ((posts_server 4294967296).mem 0).depth = 0 :=
    (posts_server_depth 4294967296).trans (by decide)
  have hq : ((posts_server 4294967296).mem 0).queue
      = msg_of_request post_one :: List.replicate 4294967295 (msg_of_request post_one) :=
    (posts_server_queue 4294967296).trans
      (List.replicate_succ (msg_of_request post_one) 4294967295)
  refine ⟨posts_server_reachable _, ?_, ?_⟩
  · unfold completion_signaled list_empty
    rw [hq]
    rfl
  · rw [hd]
    decide

/-- C8: for every state, QueryCompletion through a valid handle replies with the
current depth of the port and leaves the memory of every port (queue and depth)
and the status unchanged; a second Query right after the first replies with the
same value. -/
theorem query_is_a_pure_read (k : kernel) (req : query_completion_request)
    (reply reply2 : query_completion_reply) (s : server) (p : Nat)
    (hobj : k.get_handle_obj req.handle IO_COMPLETION_QUERY_STATE = Except.ok p) :
    (req_query_completion k req reply s).1.depth = (s.mem p).depth ∧
    (req_query_completion k req reply s).2.mem = s.mem ∧
    (req_query_completion k req reply s).2.error = s.error ∧
    (req_query_completion k req reply2 (req_query_completion k req reply s).2).1
      = (req_query_completion k req reply s).1 := by
  rw [req_query_completion_ok k req reply2 _ p hobj, req_query_completion_ok k req reply s p hobj]
  exact ⟨rfl, rfl, rfl, rfl⟩

theorem query_is_a_pure_read_witness :
    (req_query_completion (granting_kernel 0) { handle := 4 } { depth := 9 }
        { mem := fun _ => { queue := [msg_of_request post_one], depth := 1 },
          error := 0, trace := [] }).1.depth = 1 :=
  (query_is_a_pure_read (granting_kernel 0) { handle := 4 } { depth := 9 } { depth := 9 }
    { mem := fun _ => { queue := [msg_of_request post_one], depth := 1 },
      error := 0, trace := [] } 0 rfl).1

/-- C9: on a freshly created port, the sequence Post(key 1, value 100, status 0,
information 10); Post(2, 200, 0, 20); Query; Remove; Query; Remove; Remove,
issued through a handle valid for both rights and with successful allocations,
produces in order: Query = 2, Remove = (1, 100, 0, 10), Query = 1,
Remove = (2, 200, 0, 20), and a last Remove that writes no reply field and sets
the status to `STATUS_PENDING`; the two Removes that return a packet leave the
status as the creation left it. -/
theorem scenario_two_posts (kc k : kernel) (root : Option Nat) (name : List Nat)
    (attr concurrent : Nat) (s0 : server) (p e h : Nat)
    (r0 : remove_completion_reply) (q0 : query_completion_reply)
    (hdir : kc.create_named_object_dir root name attr = (some p, e))
    (hnew : e ≠ STATUS_OBJECT_NAME_EXISTS)
    (halloc : k.mem_alloc = alloc_result.ok)
    (hmod : k.get_handle_obj h IO_COMPLETION_MODIFY_STATE = Except.ok p)
    (hqry : k.get_handle_obj h IO_COMPLETION_QUERY_STATE = Except.ok p) :
    let s1 := req_add_completion k
      { handle := h, ckey := 1, cvalue := 100, status := 0, information := 10 }
      (create_completion kc root name attr concurrent s0).2
    let s2 := req_add_completion k
      { handle := h, ckey := 2, cvalue := 200, status := 0, information := 20 } s1
    let a3 := req_query_completion k { handle := h } q0 s2
    let a4 := req_remove_completion k { handle := h } r0 a3.2
    let a5 := req_query_completion k { handle := h } q0 a4.2
    let a6 := req_remove_completion k { handle := h } r0 a5.2
    let a7 := req_remove_completion k { handle := h } r0 a6.2
    a3.1.depth = 2 ∧
    a4.1 = { ckey := 1, cvalue := 100, status := 0, information := 10 } ∧
    a4.2.error = e ∧
    a5.1.depth = 1 ∧
    a6.1 = { ckey := 2, cvalue := 200, status := 0, information := 20 } ∧
    a6.2.error = e ∧
    a7.1 = r0 ∧
    a7.2.error = STATUS_PENDING := by
  intro s1 s2 a3 a4 a5 a6 a7
  have hfresh := create_completion_fresh kc root name attr concurrent s0 p e hdir hnew
  have e1 : s1 = _ := req_add_completion_ok k _ _ p hmod halloc
  have e2 : s2 = _ := req_add_completion_ok k _ s1 p hmod halloc
  have e3 : a3 = _ := req_query_completion_ok k _ q0 s2 p hqry
  have q1 : (s1.mem p).queue = [{ ckey := 1, cvalue := 100, status := 0, information := 10 }] := by
    rw [e1, hfresh]; simp [msg_of_request]
  have d1 : (s1.mem p).depth = 1 := by
    rw [e1, hfresh]; simp [uint_incr, UINT_RANGE]
  have q2 : (a3.2.mem p).queue
      = [{ ckey := 1, cvalue := 100, status := 0, information := 10 },
         { ckey := 2, cvalue := 200, status := 0, information := 20 }] := by
    rw [e3, e2]; simp [msg_of_request, q1]
  have d2 : (s2.mem p).depth = 2 := by
    rw [e2]; simp [d1, uint_incr, UINT_RANGE]
  have er2 : a3.2.error = e := by
    rw [e3, e2, e1, hfresh]
  have da3 : (a3.2.mem p).depth = 2 := by
    rw [e3]; exact d2
  obtain ⟨r4, q4, d4, er4, -⟩ :=
    req_remove_completion_cons_fields k { handle := h } r0 a3.2 p _ _ hmod q2
  have e5 : a5 = _ := req_query_completion_ok k _ q0 a4.2 p hqry
  have q5 : (a5.2.mem p).queue = [{ ckey := 2, cvalue := 200, status := 0, information := 20 }] := by
    rw [e5]; exact q4
  have er5 : a5.2.error = e := by
    rw [e5]; exact er4.trans er2
  obtain ⟨r6, q6, -, er6, -⟩ :=
    req_remove_completion_cons_fields k { handle := h } r0 a5.2 p _ _ hmod q5
  have e7 : a7 = _ := req_remove_completion_empty k { handle := h } r0 a6.2 p hmod q6
  refine ⟨?_, r4, er4.trans er2, ?_, r6, er6.trans er5, ?_, ?_⟩
  · rw [e3]; exact d2
  · rw [e5]
    show (a4.2.mem p).depth = 1
    rw [d4, da3]
    simp [uint_decr, UINT_RANGE]
  · rw [e7]
  · rw [e7]

theorem scenario_two_posts_witness :
    (req_query_completion (granting_kernel 0) { handle := 4 } { depth := 0 }
        (req_add_completion (granting_kernel 0)
          { handle := 4, ckey := 2, cvalue := 200, status := 0, information := 20 }
          (req_add_completion (granting_kernel 0)
            { handle := 4, ckey := 1, cvalue := 100, status := 0, information := 10 }
            (create_completion (granting_kernel 0) none [] 0 0 idle_server).2))).1.depth = 2 :=
  (scenario_two_posts (granting_kernel 0) (granting_kernel 0) none [] 0 0 idle_server 0 0 4
    { ckey := 0, cvalue := 0, information := 0, status := 0 } { depth := 0 }
    rfl (by decide) rfl rfl rfl).1

/-- C10: AddCompletion and RemoveCompletion consult the handle table for the
handle of the request with exactly `IO_COMPLETION_MODIFY_STATE`, and
QueryCompletion with exactly `IO_COMPLETION_QUERY_STATE` (their result depends
on the table through that one lookup only).  Whenever that lookup fails the
handler returns with the status of the failure and nothing else changed: the
memory of every port (queue and depth) is as before, the reply is handed back
as received, and no call (no wake-up in particular) is issued.  With a handle
table in which the handle is granted `IO_COMPLETION_QUERY_STATE` only, the
lookup of AddCompletion fails with `STATUS_ACCESS_DENIED`. -/
theorem failed_lookup_changes_nothing (k : kernel) (areq : add_completion_request)
    (rreq : remove_completion_request) (qreq : query_completion_request)
    (rreply : remove_completion_reply) (qreply : query_completion_reply) (s : server)
    (ea er eq : Nat)
    (hadd : k.get_handle_obj areq.handle IO_COMPLETION_MODIFY_STATE = Except.error ea)
    (hrem : k.get_handle_obj rreq.handle IO_COMPLETION_MODIFY_STATE = Except.error er)
    (hqry : k.get_handle_obj qreq.handle IO_COMPLETION_QUERY_STATE = Except.error eq) :
    (∀ (k1 k2 : kernel) (req : add_completion_request) (t : server),
      k1.get_handle_obj req.handle IO_COMPLETION_MODIFY_STATE
          = k2.get_handle_obj req.handle IO_COMPLETION_MODIFY_STATE →
        k1.mem_alloc = k2.mem_alloc →
        req_add_completion k1 req t = req_add_completion k2 req t) ∧
    (∀ (k1 k2 : kernel) (req : remove_completion_request) (r : remove_completion_reply)
        (t : server),
      k1.get_handle_obj req.handle IO_COMPLETION_MODIFY_STATE
          = k2.get_handle_obj req.handle IO_COMPLETION_MODIFY_STATE →
        req_remove_completion k1 req r t = req_remove_completion k2 req r t) ∧
    (∀ (k1 k2 : kernel) (req : query_completion_request) (r : query_completion_reply)
        (t : server),
      k1.get_handle_obj req.handle IO_COMPLETION_QUERY_STATE
          = k2.get_handle_obj req.handle IO_COMPLETION_QUERY_STATE →
        req_query_completion k1 req r t = req_query_completion k2 req r t) ∧
    req_add_completion k areq s = { mem := s.mem, error := ea, trace := s.trace } ∧
    req_remove_completion k rreq rreply s
      = (rreply, { mem := s.mem, error := er, trace := s.trace }) ∧
    req_query_completion k qreq qreply s
      = (qreply, { mem := s.mem, error := eq, trace := s.trace }) ∧
    (∀ (table : List handle_entry) (entry : handle_entry),
      table.find? (fun x => x.handle == areq.handle) = some entry →
        entry.access = IO_COMPLETION_QUERY_STATE →
        req_add_completion (table_kernel table) areq s
          = { mem := s.mem, error := STATUS_ACCESS_DENIED, trace := s.trace }) := by
  refine ⟨?_, ?_, ?_, ?_, ?_, ?_, ?_⟩
  · intro k1 k2 req t h1 h2
    unfold req_add_completion get_completion_obj
    rw [h1]
    cases k2.get_handle_obj req.handle IO_COMPLETION_MODIFY_STATE with
    | error e => rfl
    | ok c =>
      dsimp only
      rw [add_completion_congr k1 k2 c _ _ _ _ t h2]
  · intro k1 k2 req r t h1
    unfold req_remove_completion get_completion_obj
    rw [h1]
  · intro k1 k2 req r t h1
    unfold req_query_completion get_completion_obj
    rw [h1]
  · simp [req_add_completion, get_completion_obj, hadd, set_error]
  · simp [req_remove_completion, get_completion_obj, hrem, set_error]
  · simp [req_query_completion, get_completion_obj, hqry, set_error]
  · intro table entry hfind hacc
    have hden : (table_kernel table).get_handle_obj areq.handle IO_COMPLETION_MODIFY_STATE
        = Except.error STATUS_ACCESS_DENIED := by
      apply handle_table_lookup_denied table areq.handle IO_COMPLETION_MODIFY_STATE entry hfind
      rw [hacc]
      decide
    simp [req_add_completion, get_completion_obj, hden, set_error]

theorem failed_lookup_changes_nothing_witness :
    req_add_completion
        (table_kernel [{ handle := 4, obj := 0, access := IO_COMPLETION_QUERY_STATE }])
        post_one
        { mem := fun _ => { queue := [msg_of_request post_two], depth := 1 },
          error := 0, trace := [] }
      = { mem := fun _ => { queue := [msg_of_request post_two], depth := 1 },
          error := STATUS_ACCESS_DENIED, trace := [] } :=
  (failed_lookup_changes_nothing
    (table_kernel [{ handle := 4, obj := 0, access := IO_COMPLETION_QUERY_STATE }])
    post_one { handle := 4 } { handle := 8 }
    { ckey := 0, cvalue := 0, information := 0, status := 0 } { depth := 0 }
    { mem := fun _ => { queue := [msg_of_request post_two], depth := 1 },
      error := 0, trace := [] }
    STATUS_ACCESS_DENIED STATUS_ACCESS_DENIED STATUS_INVALID_HANDLE rfl rfl rfl).2.2.2.1

/-! ### Access rights -/

theorem land_lor_disjoint (x c g : Nat) (h : c &&& g = 0) : (x ||| c) &&& g = x &&& g := by
  rw [Nat.and_distrib_right, h, Nat.or_zero]

theorem generic_mask_eq :
    uint_not (GENERIC_READ ||| GENERIC_WRITE ||| GENERIC_EXECUTE ||| GENERIC_ALL) = 2 ^ 28 - 1 := by
  decide

theorem completion_map_access_eq (obj : object) (a : Nat) :
    completion_map_access obj a = expanded_access a := by
  unfold completion_map_access expanded_access
  have hw : ∀ x, (x ||| (STANDARD_RIGHTS_READ ||| SYNCHRONIZE ||| IO_COMPLETION_QUERY_STATE))
      &&& GENERIC_WRITE = x &&& GENERIC_WRITE := fun x => land_lor_disjoint x _ _ (by decide)
  have he1 : ∀ x, (x ||| (STANDARD_RIGHTS_READ ||| SYNCHRONIZE ||| IO_COMPLETION_QUERY_STATE))
      &&& GENERIC_EXECUTE = x &&& GENERIC_EXECUTE := fun x => land_lor_disjoint x _ _ (by decide)
  have he2 : ∀ x, (x ||| STANDARD_RIGHTS_WRITE) &&& GENERIC_EXECUTE = x &&& GENERIC_EXECUTE :=
    fun x => land_lor_disjoint x _ _ (by decide)
  have ha1 : ∀ x, (x ||| (STANDARD_RIGHTS_READ ||| SYNCHRONIZE ||| IO_COMPLETION_QUERY_STATE))
      &&& GENERIC_ALL = x &&& GENERIC_ALL := fun x => land_lor_disjoint x _ _ (by decide)
  have ha2 : ∀ x, (x ||| STANDARD_RIGHTS_WRITE) &&& GENERIC_ALL = x &&& GENERIC_ALL :=
    fun x => land_lor_disjoint x _ _ (by decide)
  have ha3 : ∀ x, (x ||| STANDARD_RIGHTS_EXECUTE) &&& GENERIC_ALL = x &&& GENERIC_ALL :=
    fun x => land_lor_disjoint x _ _ (by decide)
  have m1 : (STANDARD_RIGHTS_READ ||| SYNCHRONIZE ||| IO_COMPLETION_QUERY_STATE) &&&
      uint_not (GENERIC_READ ||| GENERIC_WRITE ||| GENERIC_EXECUTE ||| GENERIC_ALL)
      = STANDARD_RIGHTS_READ ||| SYNCHRONIZE ||| IO_COMPLETION_QUERY_STATE := by decide
  have m2 : STANDARD_RIGHTS_WRITE &&&
      uint_not (GENERIC_READ ||| GENERIC_WRITE ||| GENERIC_EXECUTE ||| GENERIC_ALL)
      = STANDARD_RIGHTS_WRITE := by decide
  have m3 : STANDARD_RIGHTS_EXECUTE &&&
      uint_not (GENERIC_READ ||| GENERIC_WRITE ||| GENERIC_EXECUTE ||| GENERIC_ALL)
      = STANDARD_RIGHTS_EXECUTE := by decide
  have m4 : (STANDARD_RIGHTS_ALL ||| IO_COMPLETION_ALL_ACCESS) &&&
      uint_not (GENERIC_READ ||| GENERIC_WRITE ||| GENERIC_EXECUTE ||| GENERIC_ALL)
      = STANDARD_RIGHTS_ALL ||| IO_COMPLETION_ALL_ACCESS := by decide
  by_cases hr : a &&& GENERIC_READ = 0 <;> by_cases hwr : a &&& GENERIC_WRITE = 0 <;>
    by_cases hx : a &&& GENERIC_EXECUTE = 0 <;> by_cases hal : a &&& GENERIC_ALL = 0 <;>
    simp only [hr, hwr, hx, hal, hw, he1, he2, ha1, ha2, ha3, ne_eq, not_true_eq_false,
      not_false_eq_true, if_true, if_false, Nat.and_distrib_right, m1, m2, m3, m4, Nat.or_zero]

theorem land_generic_mask_testBit (a i : Nat) (ha : a < UINT_RANGE) :
    (a &&& uint_not (GENERIC_READ ||| GENERIC_WRITE ||| GENERIC_EXECUTE ||| GENERIC_ALL)).testBit i
      = (a.testBit i &&
          !(decide (i = 28) || decide (i = 29) || decide (i = 30) || decide (i = 31))) := by
  rw [generic_mask_eq, Nat.testBit_and, Nat.testBit_two_pow_sub_one]
  by_cases h : i < 32
  · by_cases h2 : i < 28
    · simp [h2]; intro _; omega
    · simp [h2]; intro _; omega
  · have hb : a.testBit i = false := by
      apply Nat.testBit_lt_two_pow
      calc a < 2 ^ 32 := ha
        _ ≤ 2 ^ i := Nat.pow_le_pow_right (by decide) (by omega)
    simp [hb]

theorem completion_map_access_land (obj : object) (a g : Nat)
    (hg : uint_not (GENERIC_READ ||| GENERIC_WRITE ||| GENERIC_EXECUTE ||| GENERIC_ALL) &&& g = 0) :
    completion_map_access obj a &&& g = 0 := by
  unfold completion_map_access
  rw [Nat.and_assoc, hg]
  exact Nat.and_zero _

/-- C11: for every 32-bit access mask `a`, `completion_map_access` gives `a` with
the four generic bits (bits 28 to 31) cleared, OR-ed with
`STANDARD_RIGHTS_READ | SYNCHRONIZE | IO_COMPLETION_QUERY_STATE` if
`GENERIC_READ` is set in `a`, with `STANDARD_RIGHTS_WRITE` if `GENERIC_WRITE`
is set, with `STANDARD_RIGHTS_EXECUTE` if `GENERIC_EXECUTE` is set, with
`STANDARD_RIGHTS_ALL | IO_COMPLETION_ALL_ACCESS` if `GENERIC_ALL` is set, and
nothing else. -/
theorem completion_map_access_expands (obj : object) (a : Nat) (ha : a < UINT_RANGE) :
    completion_map_access obj a
      = (a &&& uint_not (GENERIC_READ ||| GENERIC_WRITE ||| GENERIC_EXECUTE ||| GENERIC_ALL)) |||
        (if a &&& GENERIC_READ ≠ 0 then
          STANDARD_RIGHTS_READ ||| SYNCHRONIZE ||| IO_COMPLETION_QUERY_STATE else 0) |||
        (if a &&& GENERIC_WRITE ≠ 0 then STANDARD_RIGHTS_WRITE else 0) |||
        (if a &&& GENERIC_EXECUTE ≠ 0 then STANDARD_RIGHTS_EXECUTE else 0) |||
        (if a &&& GENERIC_ALL ≠ 0 then STANDARD_RIGHTS_ALL ||| IO_COMPLETION_ALL_ACCESS else 0) ∧
    (∀ i,
      (a &&& uint_not (GENERIC_READ ||| GENERIC_WRITE ||| GENERIC_EXECUTE ||| GENERIC_ALL)).testBit i
        = (a.testBit i &&
            !(decide (i = 28) || decide (i = 29) || decide (i = 30) || decide (i = 31)))) :=
  ⟨completion_map_access_eq obj a, fun i => land_generic_mask_testBit a i ha⟩

theorem completion_map_access_expands_witness :
    completion_map_access (object.completion 0) 0x80000001
      = (0x80000001 &&&
          uint_not (GENERIC_READ ||| GENERIC_WRITE ||| GENERIC_EXECUTE ||| GENERIC_ALL)) |||
        (if 0x80000001 &&& GENERIC_READ ≠ 0 then
          STANDARD_RIGHTS_READ ||| SYNCHRONIZE ||| IO_COMPLETION_QUERY_STATE else 0) |||
        (if 0x80000001 &&& GENERIC_WRITE ≠ 0 then STANDARD_RIGHTS_WRITE else 0) |||
        (if 0x80000001 &&& GENERIC_EXECUTE ≠ 0 then STANDARD_RIGHTS_EXECUTE else 0) |||
        (if 0x80000001 &&& GENERIC_ALL ≠ 0 then
          STANDARD_RIGHTS_ALL ||| IO_COMPLETION_ALL_ACCESS else 0) :=
  (completion_map_access_expands (object.completion 0) 0x80000001 (by decide)).1

/-- C12: for every access mask `a`, the result of `completion_map_access` has none
of `GENERIC_READ`, `GENERIC_WRITE`, `GENERIC_EXECUTE`, `GENERIC_ALL` set. -/
theorem completion_map_access_clears_generic (obj : object) (a : Nat) :
    completion_map_access obj a &&& GENERIC_READ = 0 ∧
    completion_map_access obj a &&& GENERIC_WRITE = 0 ∧
    completion_map_access obj a &&& GENERIC_EXECUTE = 0 ∧
    completion_map_access obj a &&& GENERIC_ALL = 0 :=
  ⟨completion_map_access_land obj a _ (by decide), completion_map_access_land obj a _ (by decide),
   completion_map_access_land obj a _ (by decide), completion_map_access_land obj a _ (by decide)⟩

/-! ### Creation -/

theorem create_completion_exists (k : kernel) (root : Option Nat) (name : List Nat)
    (attr concurrent : Nat) (s : server) (p : Nat)
    (hdir : k.create_named_object_dir root name attr = (some p, STATUS_OBJECT_NAME_EXISTS)) :
    create_completion k root name attr concurrent s =
      (some p, { mem := s.mem, error := STATUS_OBJECT_NAME_EXISTS, trace := s.trace }) := by
  simp [create_completion, hdir, set_error, get_error]

theorem create_completion_none (k : kernel) (root : Option Nat) (name : List Nat)
    (attr concurrent : Nat) (s : server) (e : Nat)
    (hdir : k.create_named_object_dir root name attr = (none, e)) :
    create_completion k root name attr concurrent s =
      (none, { mem := s.mem, error := e, trace := s.trace }) := by
  simp [create_completion, hdir, set_error]

theorem create_completion_concurrent (k : kernel) (root : Option Nat) (name : List Nat)
    (attr c1 c2 : Nat) (s : server) :
    create_completion k root name attr c1 s = create_completion k root name attr c2 s := rfl

/-- C13: `create_completion` sets the queue to empty and depth to 0 exactly when
the directory returned an object and did not report `STATUS_OBJECT_NAME_EXISTS`
(every other port is left alone); when the directory reports that the name
already exists, or returns no object, the memory of every port is left as it
was.  So the packets queued on a port after its creation are still there, in
order and with the same depth, after a second creation that finds the name. -/
theorem create_completion_initialises_fresh_only (k k2 ka : kernel) (root : Option Nat)
    (name : List Nat) (attr concurrent : Nat) (s : server) :
    (∀ p e, k.create_named_object_dir root name attr = (some p, e) →
      e ≠ STATUS_OBJECT_NAME_EXISTS →
      (create_completion k root name attr concurrent s).1 = some p ∧
      (create_completion k root name attr concurrent s).2.mem p = { queue := [], depth := 0 } ∧
      (∀ q, q ≠ p → (create_completion k root name attr concurrent s).2.mem q = s.mem q)) ∧
    (∀ p, k.create_named_object_dir root name attr = (some p, STATUS_OBJECT_NAME_EXISTS) →
      (create_completion k root name attr concurrent s).1 = some p ∧
      (create_completion k root name attr concurrent s).2.mem = s.mem) ∧
    (∀ e, k.create_named_object_dir root name attr = (none, e) →
      (create_completion k root name attr concurrent s).1 = none ∧
      (create_completion k root name attr concurrent s).2.mem = s.mem) ∧
    (∀ p e pkts (root2 : Option Nat) (name2 : List Nat) (attr2 concurrent2 : Nat),
      k.create_named_object_dir root name attr = (some p, e) →
      e ≠ STATUS_OBJECT_NAME_EXISTS →
      ka.mem_alloc = alloc_result.ok →
      k2.create_named_object_dir root2 name2 attr2 = (some p, STATUS_OBJECT_NAME_EXISTS) →
      (create_completion k2 root2 name2 attr2 concurrent2
          (add_all ka p pkts (create_completion k root name attr concurrent s).2)).2.mem p
        = { queue := pkts, depth := pkts.length % UINT_RANGE }) := by
  refine ⟨?_, ?_, ?_, ?_⟩
  · intro p e hdir hnew
    rw [create_completion_fresh k root name attr concurrent s p e hdir hnew]
    refine ⟨rfl, by simp, ?_⟩
    intro q hq
    simp [Function.update_noteq hq]
  · intro p hdir
    rw [create_completion_exists k root name attr concurrent s p hdir]
    exact ⟨rfl, rfl⟩
  · intro e hdir
    rw [create_completion_none k root name attr concurrent s e hdir]
    exact ⟨rfl, rfl⟩
  · intro p e pkts root2 name2 attr2 concurrent2 hdir hnew halloc hdir2
    rw [create_completion_exists k2 root2 name2 attr2 concurrent2 _ p hdir2]
    have hfresh := create_completion_fresh k root name attr concurrent s p e hdir hnew
    have hq : ((add_all ka p pkts (create_completion k root name attr concurrent s).2).mem p).queue
        = pkts := by
      rw [add_all_queue ka p pkts _ halloc, hfresh]
      simp
    have hd : depth_matches
        ((add_all ka p pkts (create_completion k root name attr concurrent s).2).mem p) := by
      apply add_all_depth_matches
      rw [hfresh]
      simp [depth_matches]
    unfold depth_matches at hd
    rw [hq] at hd
    show (add_all ka p pkts (create_completion k root name attr concurrent s).2).mem p = _
    cases hc : (add_all ka p pkts (create_completion k root name attr concurrent s).2).mem p with
    | mk q d =>
      rw [hc] at hq hd
      simp only at hq hd
      rw [hq, hd]

theorem create_completion_initialises_fresh_only_witness :
    (create_completion
        { granting_kernel 0 with
          create_named_object_dir := fun _ _ _ => (some 0, STATUS_OBJECT_NAME_EXISTS) }
        none [80] 0 0
        (add_all (granting_kernel 0) 0 [msg_of_request post_one, msg_of_request post_two]
          (create_completion (granting_kernel 0) none [80] 0 0 idle_server).2)).2.mem 0
      = { queue := [msg_of_request post_one, msg_of_request post_two],
          depth := [msg_of_request post_one, msg_of_request post_two].length % UINT_RANGE } :=
  (create_completion_initialises_fresh_only (granting_kernel 0)
    { granting_kernel 0 with
      create_named_object_dir := fun _ _ _ => (some 0, STATUS_OBJECT_NAME_EXISTS) }
    (granting_kernel 0) none [80] 0 0 idle_server).2.2.2 0 0
    [msg_of_request post_one, msg_of_request post_two] none [80] 0 0 rfl (by decide) rfl rfl

/-- C14 (as amended): the concurrency hint is not stored.  For all hints `c1` and
`c2`, `create_completion` and the CreateCompletion handler give the same result
and the same state, and after a fresh creation with any hint QueryCompletion on
the new port replies with depth 0, the only field of its reply. -/
theorem create_completion_drops_concurrent (k kq : kernel) (req : create_completion_request)
    (reply : create_completion_reply) (s : server) (c1 c2 : Nat) (root : Option Nat) (p e : Nat)
    (qreq : query_completion_request) (qreply : query_completion_reply)
    (hdir : k.create_named_object_dir root req.name req.attributes = (some p, e))
    (hnew : e ≠ STATUS_OBJECT_NAME_EXISTS)
    (hqry : kq.get_handle_obj qreq.handle IO_COMPLETION_QUERY_STATE = Except.ok p) :
    create_completion k root req.name req.attributes c1 s
      = create_completion k root req.name req.attributes c2 s ∧
    req_create_completion k { req with concurrent := c1 } reply s
      = req_create_completion k { req with concurrent := c2 } reply s ∧
    req_query_completion kq qreq qreply (create_completion k root req.name req.attributes c1 s).2
      = ({ depth := 0 },
          release_object (object.completion p)
            (create_completion k root req.name req.attributes c2 s).2) := by
  refine ⟨rfl, rfl, ?_⟩
  rw [req_query_completion_ok kq qreq qreply _ p hqry,
    create_completion_fresh k root req.name req.attributes c1 s p e hdir hnew,
    create_completion_fresh k root req.name req.attributes c2 s p e hdir hnew]
  simp [release_object]

theorem create_completion_drops_concurrent_witness :
    req_create_completion (granting_kernel 0)
        { access := 3, attributes := 0, concurrent := 5, rootdir := 0, name := [] }
        { handle := 0 } idle_server
      = req_create_completion (granting_kernel 0)
        { access := 3, attributes := 0, concurrent := 7, rootdir := 0, name := [] }
        { handle := 0 } idle_server :=
  (create_completion_drops_concurrent (granting_kernel 0) (granting_kernel 0)
    { access := 3, attributes := 0, concurrent := 0, rootdir := 0, name := [] }
    { handle := 0 } idle_server 5 7 none 0 0 { handle := 4 } { depth := 0 }
    rfl (by decide) rfl).2.1

/-- C14 fails as stated: after CreateCompletion with concurrency hint 5 has created
a port, the state equals the one CreateCompletion with hint 7 leaves, and
QueryCompletion on the new port replies 0, not 5. -/
theorem create_completion_stores_concurrent_counterexample :
    (req_create_completion (granting_kernel 0)
        { access := 3, attributes := 0, concurrent := 5, rootdir := 0, name := [] }
        { handle := 0 } idle_server).2.mem 0 = { queue := [], depth := 0 } ∧
    (req_create_completion (granting_kernel 0)
        { access := 3, attributes := 0, concurrent := 5, rootdir := 0, name := [] }
        { handle := 0 } idle_server)
      = (req_create_completion (granting_kernel 0)
        { access := 3, attributes := 0, concurrent := 7, rootdir := 0, name := [] }
        { handle := 0 } idle_server) ∧
    (req_query_completion (granting_kernel 0) { handle := 4 } { depth := 0 }
        (req_create_completion (granting_kernel 0)
          { access := 3, attributes := 0, concurrent := 5, rootdir := 0, name := [] }
          { handle := 0 } idle_server).2).1.depth = 0 ∧
    (req_query_completion (granting_kernel 0) { handle := 4 } { depth := 0 }
        (req_create_completion (granting_kernel 0)
          { access := 3, attributes := 0, concurrent := 5, rootdir := 0, name := [] }
          { handle := 0 } idle_server).2).1.depth ≠ 5 := by
  refine ⟨rfl, rfl, rfl, ?_⟩
  decide

/-! ### The handlers of CreateCompletion and OpenCompletion -/

theorem req_create_completion_some_ok (k : kernel) (req : create_completion_request)
    (reply : create_completion_reply) (s s1 : server) (root : Option Nat) (p h : Nat)
    (hroot : root_of_request k req.rootdir = Except.ok root)
    (hcreate : create_completion k root req.name req.attributes req.concurrent s = (some p, s1))
    (halloc : k.alloc_handle p req.access req.attributes = Except.ok h) :
    (req_create_completion k req reply s).1 = { handle := h } ∧
    (req_create_completion k req reply s).2.mem = s1.mem ∧
    (req_create_completion k req reply s).2.error = s1.error := by
  unfold root_of_request at hroot
  unfold req_create_completion
  simp only [hroot, hcreate, halloc]
  cases root <;> simp [release_object]

theorem req_create_completion_none (k : kernel) (req : create_completion_request)
    (reply : create_completion_reply) (s s1 : server) (root : Option Nat)
    (hroot : root_of_request k req.rootdir = Except.ok root)
    (hcreate : create_completion k root req.name req.attributes req.concurrent s = (none, s1)) :
    (req_create_completion k req reply s).1 = { handle := 0 } ∧
    (req_create_completion k req reply s).2.mem = s1.mem ∧
    (req_create_completion k req reply s).2.error = s1.error := by
  unfold root_of_request at hroot
  unfold req_create_completion
  simp only [hroot, hcreate]
  cases root <;> simp [release_object]

theorem req_open_completion_error (k : kernel) (req : open_completion_request)
    (reply : open_completion_reply) (s : server) (root : Option Nat) (e : Nat)
    (hroot : root_of_request k req.rootdir = Except.ok root)
    (hopen : k.open_object_dir root req.name req.attributes = Except.error e) :
    (req_open_completion k req reply s).1 = { handle := 0 } ∧
    (req_open_completion k req reply s).2.mem = s.mem ∧
    (req_open_completion k req reply s).2.error = e := by
  unfold root_of_request at hroot
  unfold req_open_completion
  simp only [hroot, hopen]
  cases root <;> simp [release_object, set_error]

/-! ### The Named Object Directory -/

theorem dir_create_named_object_absent (dir : List dir_entry) (fresh : Nat) (root : Option Nat)
    (name : List Nat) (ops : object_ops) (h : dir_find dir root name = none) :
    dir_create_named_object dir fresh root name ops =
      ((some fresh, STATUS_SUCCESS),
        dir ++ [{ root := root, name := name, ops := ops, obj := fresh }]) := by
  simp [dir_create_named_object, h]

theorem dir_find_inserted (dir : List dir_entry) (fresh : Nat) (root : Option Nat)
    (name : List Nat) (ops : object_ops) (h : dir_find dir root name = none) :
    dir_find (dir ++ [{ root := root, name := name, ops := ops, obj := fresh }]) root name
      = some { root := root, name := name, ops := ops, obj := fresh } := by
  unfold dir_find at *
  rw [List.find?_append, h]
  simp

theorem dir_create_named_object_again (dir : List dir_entry) (fresh fresh2 : Nat)
    (root : Option Nat) (name : List Nat) (ops : object_ops)
    (h : dir_find dir root name = none) :
    dir_create_named_object (dir_create_named_object dir fresh root name ops).2 fresh2 root name
        ops
      = ((some fresh, STATUS_OBJECT_NAME_EXISTS),
          (dir_create_named_object dir fresh root name ops).2) := by
  rw [dir_create_named_object_absent dir fresh root name ops h]
  simp [dir_create_named_object, dir_find_inserted dir fresh root name ops h]

theorem dir_create_named_object_mismatch (dir : List dir_entry) (fresh : Nat)
    (root : Option Nat) (name : List Nat) (ops : object_ops) (e : dir_entry)
    (h : dir_find dir root name = some e) (hne : e.ops ≠ ops) :
    dir_create_named_object dir fresh root name ops
      = ((none, STATUS_OBJECT_TYPE_MISMATCH), dir) := by
  simp [dir_create_named_object, h, hne]

/-- C15: with the Named Object Directory of the specification, calling
CreateCompletion twice with the same name and root directory, the name being
absent before the first call and both handle allocations succeeding: the first
call creates and initialises a port, and the second call gets the same port
object from the directory, replies with the handle allocated for it (non-zero),
ends with the status `STATUS_OBJECT_NAME_EXISTS` and leaves the memory of every
port as it was. -/
theorem create_twice_gives_same_port (k1 k2 : kernel) (dir : List dir_entry)
    (fresh fresh2 : Nat) (req1 req2 : create_completion_request)
    (reply : create_completion_reply) (s1 s2 : server) (root : Option Nat) (h1 h2 : Nat)
    (hroot1 : root_of_request k1 req1.rootdir = Except.ok root)
    (hroot2 : root_of_request k2 req2.rootdir = Except.ok root)
    (hname : req2.name = req1.name)
    (habsent : dir_find dir root req1.name = none)
    (hdir1 : k1.create_named_object_dir root req1.name req1.attributes
      = (dir_create_named_object dir fresh root req1.name object_ops.completion_ops).1)
    (hdir2 : k2.create_named_object_dir root req2.name req2.attributes
      = (dir_create_named_object
          (dir_create_named_object dir fresh root req1.name object_ops.completion_ops).2
          fresh2 root req2.name object_ops.completion_ops).1)
    (halloc1 : k1.alloc_handle fresh req1.access req1.attributes = Except.ok h1)
    (halloc2 : k2.alloc_handle fresh req2.access req2.attributes = Except.ok h2)
    (hnz : h2 ≠ 0) :
    (create_completion k1 root req1.name req1.attributes req1.concurrent s1).1 = some fresh ∧
    (req_create_completion k1 req1 reply s1).1.handle = h1 ∧
    (req_create_completion k1 req1 reply s1).2.error = STATUS_SUCCESS ∧
    (req_create_completion k1 req1 reply s1).2.mem fresh = { queue := [], depth := 0 } ∧
    (create_completion k2 root req2.name req2.attributes req2.concurrent s2).1 = some fresh ∧
    (req_create_completion k2 req2 reply s2).1.handle = h2 ∧
    (req_create_completion k2 req2 reply s2).1.handle ≠ 0 ∧
    (req_create_completion k2 req2 reply s2).2.error = STATUS_OBJECT_NAME_EXISTS ∧
    (req_create_completion k2 req2 reply s2).2.mem = s2.mem := by
  rw [dir_create_named_object_absent dir fresh root req1.name _ habsent] at hdir1
  rw [hname, dir_create_named_object_again dir fresh fresh2 root req1.name _ habsent] at hdir2
  have hc1 := create_completion_fresh k1 root req1.name req1.attributes req1.concurrent s1
    fresh STATUS_SUCCESS hdir1 (by decide)
  have hc2 : create_completion k2 root req2.name req2.attributes req2.concurrent s2
      = (some fresh, { mem := s2.mem, error := STATUS_OBJECT_NAME_EXISTS, trace := s2.trace }) := by
    rw [hname]
    exact create_completion_exists k2 root req1.name req2.attributes req2.concurrent s2 fresh hdir2
  obtain ⟨a1, a2, a3⟩ := req_create_completion_some_ok k1 req1 reply s1 _ root fresh h1 hroot1
    hc1 halloc1
  obtain ⟨b1, b2, b3⟩ := req_create_completion_some_ok k2 req2 reply s2 _ root fresh h2 hroot2
    hc2 halloc2
  refine ⟨by rw [hc1], by rw [a1], by rw [a3], by rw [a2]; simp, by rw [hc2], by rw [b1], ?_,
    by rw [b3], by rw [b2]⟩
  rw [b1]
  exact hnz

theorem create_twice_gives_same_port_witness :
    (req_create_completion
        (directory_kernel
          (dir_create_named_object [] 0 none [80, 111, 114, 116] object_ops.completion_ops).2 1 8)
        { access := 3, attributes := 0, concurrent := 2, rootdir := 0,
          name := [80, 111, 114, 116] }
        { handle := 0 } idle_server).2.error = STATUS_OBJECT_NAME_EXISTS :=
  (create_twice_gives_same_port (directory_kernel [] 0 4)
    (directory_kernel
      (dir_create_named_object [] 0 none [80, 111, 114, 116] object_ops.completion_ops).2 1 8)
    [] 0 1
    { access := 3, attributes := 0, concurrent := 2, rootdir := 0, name := [80, 111, 114, 116] }
    { access := 3, attributes := 0, concurrent := 2, rootdir := 0, name := [80, 111, 114, 116] }
    { handle := 0 } idle_server idle_server none 4 8
    rfl rfl rfl rfl rfl rfl rfl rfl (by decide)).2.2.2.2.2.2.2.1

/-- C16: with the Named Object Directory of the specification, CreateCompletion
with a name that the directory binds to an object of another type fails with
`STATUS_OBJECT_TYPE_MISMATCH` (NameCollisionWrongType): the directory returns
no object and is left as it was, no port is initialised (the memory of every
port is unchanged), and the reply handle is 0. -/
theorem create_over_other_type_fails (k : kernel) (dir : List dir_entry) (fresh : Nat)
    (req : create_completion_request) (reply : create_completion_reply) (s : server)
    (root : Option Nat) (e : dir_entry)
    (hroot : root_of_request k req.rootdir = Except.ok root)
    (hfound : dir_find dir root req.name = some e)
    (htype : e.ops ≠ object_ops.completion_ops)
    (hdir : k.create_named_object_dir root req.name req.attributes
      = (dir_create_named_object dir fresh root req.name object_ops.completion_ops).1) :
    (create_completion k root req.name req.attributes req.concurrent s).1 = none ∧
    (dir_create_named_object dir fresh root req.name object_ops.completion_ops).2 = dir ∧
    (req_create_completion k req reply s).1.handle = 0 ∧
    (req_create_completion k req reply s).2.error = STATUS_OBJECT_TYPE_MISMATCH ∧
    (req_create_completion k req reply s).2.mem = s.mem := by
  have hm := dir_create_named_object_mismatch dir fresh root req.name _ e hfound htype
  rw [hm] at hdir
  have hc := create_completion_none k root req.name req.attributes req.concurrent s _ hdir
  obtain ⟨a1, a2, a3⟩ := req_create_completion_none k req reply s _ root hroot hc
  exact ⟨by rw [hc], by rw [hm], by rw [a1], by rw [a3], by rw [a2]⟩

theorem create_over_other_type_fails_witness :
    (req_create_completion
        (directory_kernel
          [{ root := none, name := [69, 118], ops := object_ops.other_ops 1, obj := 3 }] 0 4)
        { access := 3, attributes := 0, concurrent := 2, rootdir := 0, name := [69, 118] }
        { handle := 9 } idle_server).1.handle = 0 :=
  (create_over_other_type_fails
    (directory_kernel
      [{ root := none, name := [69, 118], ops := object_ops.other_ops 1, obj := 3 }] 0 4)
    [{ root := none, name := [69, 118], ops := object_ops.other_ops 1, obj := 3 }] 0
    { access := 3, attributes := 0, concurrent := 2, rootdir := 0, name := [69, 118] }
    { handle := 9 } idle_server none
    { root := none, name := [69, 118], ops := object_ops.other_ops 1, obj := 3 }
    rfl rfl (by decide) rfl).2.2.1

/-- C17: with the Named Object Directory of the specification, OpenCompletion on a
name that is not present in the directory fails with
`STATUS_OBJECT_NAME_NOT_FOUND` (ObjectNotFound): the lookup gives no object,
the memory of every port is unchanged, and the reply handle is 0. -/
theorem open_absent_name_fails (k : kernel) (dir : List dir_entry)
    (req : open_completion_request) (reply : open_completion_reply) (s : server)
    (root : Option Nat)
    (hroot : root_of_request k req.rootdir = Except.ok root)
    (habsent : dir_find dir root req.name = none)
    (hdir : k.open_object_dir root req.name req.attributes
      = dir_open_object dir root req.name object_ops.completion_ops) :
    dir_open_object dir root req.name object_ops.completion_ops
      = Except.error STATUS_OBJECT_NAME_NOT_FOUND ∧
    (req_open_completion k req reply s).1.handle = 0 ∧
    (req_open_completion k req reply s).2.error = STATUS_OBJECT_NAME_NOT_FOUND ∧
    (req_open_completion k req reply s).2.mem = s.mem := by
  have ho : dir_open_object dir root req.name object_ops.completion_ops
      = Except.error STATUS_OBJECT_NAME_NOT_FOUND := by
    simp [dir_open_object, habsent]
  rw [ho] at hdir
  obtain ⟨a1, a2, a3⟩ := req_open_completion_error k req reply s root _ hroot hdir
  exact ⟨ho, by rw [a1], a3, a2⟩

theorem open_absent_name_fails_witness :
    (req_open_completion
        (directory_kernel
          [{ root := none, name := [80], ops := object_ops.completion_ops, obj := 0 }] 1 4)
        { access := 3, attributes := 0, rootdir := 0, name := [81] }
        { handle := 9 } idle_server).2.error = STATUS_OBJECT_NAME_NOT_FOUND :=
  (open_absent_name_fails
    (directory_kernel
      [{ root := none, name := [80], ops := object_ops.completion_ops, obj := 0 }] 1 4)
    [{ root := none, name := [80], ops := object_ops.completion_ops, obj := 0 }]
    { access := 3, attributes := 0, rootdir := 0, name := [81] }
    { handle := 9 } idle_server none rfl rfl rfl).2.2.1

/-! ### Destruction -/

theorem completion_destroy_loop_spec (queue : List comp_msg) (s : server) :
    completion_destroy_loop queue s =
      { mem := s.mem, error := s.error, trace := s.trace ++ queue.map event.free } := by
  induction queue generalizing s with
  | nil => simp [completion_destroy_loop]
  | cons tmp next ih =>
    rw [completion_destroy_loop, ih]
    simp [free]

theorem event_free_injective : Function.Injective event.free := by
  intro a b h
  injection h

/-! ### Allocation failure -/

theorem add_completion_failed (k : kernel) (p ckey cvalue status information : Nat) (s : server)
    (err : Option Nat) (halloc : k.mem_alloc = alloc_result.failed err) :
    add_completion k p ckey cvalue status information s =
      { mem := s.mem, error := err.getD s.error, trace := s.trace } := by
  simp [add_completion, halloc, set_error]

/-! ### The Wait/Signal Engine -/

theorem register_all_eq (threads : List Nat) :
    register_all threads = { waiting := threads, woken := [] } := by
  have h : ∀ (ts : List Nat) (w : wait_queue),
      ts.foldl (fun w t => add_queue t w) w = { waiting := w.waiting ++ ts, woken := w.woken } := by
    intro ts
    induction ts with
    | nil => intro w; simp
    | cons t rest ih =>
      intro w
      rw [List.foldl_cons, ih]
      simp [add_queue]
  unfold register_all
  rw [h]
  simp

theorem wake_up_one (w : wait_queue) :
    wake_up true 1 w =
      { waiting := w.waiting.drop 1, woken := w.woken ++ w.waiting.take 1 } := by
  unfold wake_up
  cases hw : w.waiting with
  | nil => simp [wake_up_loop]
  | cons t rest =>
    cases rest <;> simp [wake_up_loop]

theorem post_and_wake_ok (k : kernel) (p : Nat) (msg : comp_msg) (s : server) (w : wait_queue)
    (halloc : k.mem_alloc = alloc_result.ok) :
    post_and_wake k p msg (s, w) =
      (add_completion k p msg.ckey msg.cvalue msg.status msg.information s,
        { waiting := w.waiting.drop 1, woken := w.woken ++ w.waiting.take 1 }) := by
  unfold post_and_wake
  rw [← wake_up_one]
  simp only [add_completion_ok k p _ _ _ _ s halloc]
  have hne : ∀ (q : List comp_msg) (m : comp_msg), (q ++ [m]).isEmpty = false := by
    intro q m
    cases q <;> rfl
  simp [deliver, completion_signaled, list_empty, hne]

theorem posts_and_wakes_ok (k : kernel) (p : Nat) (pkts : List comp_msg) (s : server)
    (w : wait_queue) (halloc : k.mem_alloc = alloc_result.ok) :
    (posts_and_wakes k p pkts (s, w)).2 =
      { waiting := w.waiting.drop pkts.length,
        woken := w.woken ++ w.waiting.take pkts.length } := by
  induction pkts generalizing s w with
  | nil => simp [posts_and_wakes]
  | cons msg rest ih =>
    rw [posts_and_wakes, post_and_wake_ok k p msg s w halloc, ih]
    cases hw : w.waiting with
    | nil => simp
    | cons t ts => simp

/-- C18: for every state, `completion_destroy` terminates and issues exactly one
`free` per packet still in the queue, in queue order, and no other call: every
packet is freed as often as it occurs in the queue (no omission, no
repetition), and neither the memory of the ports nor the status is touched.
After two Posts and no Remove on a fresh port, exactly the two packets are
freed, once each. -/
theorem completion_destroy_frees_each_packet_once (kc ka : kernel) (root : Option Nat)
    (name : List Nat) (attr concurrent : Nat) (s0 s : server) (p q e : Nat) (m1 m2 : comp_msg)
    (hdir : kc.create_named_object_dir root name attr = (some p, e))
    (hnew : e ≠ STATUS_OBJECT_NAME_EXISTS)
    (halloc : ka.mem_alloc = alloc_result.ok) :
    (completion_destroy q s).trace = s.trace ++ (s.mem q).queue.map event.free ∧
    (∀ msg, ((completion_destroy q s).trace.drop s.trace.length).count (event.free msg)
      = (s.mem q).queue.count msg) ∧
    ((completion_destroy q s).trace.drop s.trace.length).length = (s.mem q).queue.length ∧
    (completion_destroy q s).mem = s.mem ∧
    (completion_destroy q s).error = s.error ∧
    (completion_destroy p
        (add_all ka p [m1, m2] (create_completion kc root name attr concurrent s0).2)).trace
      = (add_all ka p [m1, m2] (create_completion kc root name attr concurrent s0).2).trace
          ++ [event.free m1, event.free m2] := by
  have hspec : ∀ (x : Nat) (t : server),
      completion_destroy x t =
        { mem := t.mem, error := t.error, trace := t.trace ++ (t.mem x).queue.map event.free } :=
    fun x t => completion_destroy_loop_spec (t.mem x).queue t
  have hdrop : (completion_destroy q s).trace.drop s.trace.length
      = (s.mem q).queue.map event.free := by
    rw [hspec]
    simp
  refine ⟨by rw [hspec], ?_, ?_, by rw [hspec], by rw [hspec], ?_⟩
  · intro msg
    rw [hdrop]
    exact List.count_map_of_injective _ _ event_free_injective msg
  · rw [hdrop, List.length_map]
  · rw [hspec]
    have hq := add_all_queue ka p [m1, m2] (create_completion kc root name attr concurrent s0).2
      halloc
    rw [create_completion_fresh kc root name attr concurrent s0 p e hdir hnew] at hq ⊢
    simp only [Function.update_same, List.nil_append] at hq
    rw [hq]
    rfl

theorem completion_destroy_frees_each_packet_once_witness :
    (completion_destroy 0
        (add_all (granting_kernel 0) 0 [msg_of_request post_one, msg_of_request post_two]
          (create_completion (granting_kernel 0) none [] 0 0 idle_server).2)).trace
      = (add_all (granting_kernel 0) 0 [msg_of_request post_one, msg_of_request post_two]
          (create_completion (granting_kernel 0) none [] 0 0 idle_server).2).trace
          ++ [event.free (msg_of_request post_one), event.free (msg_of_request post_two)] :=
  (completion_destroy_frees_each_packet_once (granting_kernel 0) (granting_kernel 0) none [] 0 0
    idle_server idle_server 0 0 0 (msg_of_request post_one) (msg_of_request post_two)
    rfl (by decide) rfl).2.2.2.2.2

/-- C19: for every state and every packet, when the allocation fails
`add_completion` returns without a status of its own (the status is the one the
allocator left, or the previous one if it left none), with the memory of every
port (queue and depth) unchanged and no call issued, no wake-up in particular;
the AddCompletion handler then only releases its reference.  The packet is
dropped. -/
theorem add_completion_drops_packet_on_failure (k : kernel)
    (p ckey cvalue status information : Nat) (s : server) (err : Option Nat)
    (req : add_completion_request)
    (halloc : k.mem_alloc = alloc_result.failed err)
    (hobj : k.get_handle_obj req.handle IO_COMPLETION_MODIFY_STATE = Except.ok p) :
    (add_completion k p ckey cvalue status information s).mem = s.mem ∧
    (add_completion k p ckey cvalue status information s).trace = s.trace ∧
    (add_completion k p ckey cvalue status information s).error = err.getD s.error ∧
    (err = none → add_completion k p ckey cvalue status information s = s) ∧
    req_add_completion k req s =
      { mem := s.mem, error := err.getD s.error,
        trace := s.trace ++ [event.release_object (object.completion p)] } := by
  rw [add_completion_failed k p ckey cvalue status information s err halloc]
  refine ⟨rfl, rfl, rfl, ?_, ?_⟩
  · intro hnone
    rw [hnone]
    rfl
  · simp [req_add_completion, get_completion_obj, hobj, release_object,
      add_completion_failed k p _ _ _ _ s err halloc]

theorem add_completion_drops_packet_on_failure_witness :
    req_add_completion
        { granting_kernel 0 with mem_alloc := alloc_result.failed none } post_two
        { mem := fun _ => { queue := [msg_of_request post_one], depth := 1 },
          error := 0, trace := [] }
      = { mem := fun _ => { queue := [msg_of_request post_one], depth := 1 },
          error := 0, trace := [event.release_object (object.completion 0)] } :=
  (add_completion_drops_packet_on_failure
    { granting_kernel 0 with mem_alloc := alloc_result.failed none } 0 2 200 0 20
    { mem := fun _ => { queue := [msg_of_request post_one], depth := 1 },
      error := 0, trace := [] } none post_two rfl rfl).2.2.2.2

/-- C20: with the Wait/Signal Engine of the specification, when the threads of a
list are blocked on the same completion port, registered in the order of the
list, successive successful Posts wake them in that order, one thread per Post:
after the Posts of `pkts` the threads woken are the first `pkts.length` of the
list, in order, the others are still registered in order, and each single Post
wakes the earliest thread still waiting and no other. -/
theorem posts_wake_waiters_in_fifo_order (k : kernel) (p : Nat) (pkts : List comp_msg)
    (s : server) (threads : List Nat) (halloc : k.mem_alloc = alloc_result.ok) :
    (posts_and_wakes k p pkts (s, register_all threads)).2.woken = threads.take pkts.length ∧
    (posts_and_wakes k p pkts (s, register_all threads)).2.waiting
      = threads.drop pkts.length ∧
    (∀ (w : wait_queue) (t : Nat) (rest : List Nat) (msg : comp_msg) (s1 : server),
      w.waiting = t :: rest →
      (post_and_wake k p msg (s1, w)).2 = { waiting := rest, woken := w.woken ++ [t] }) := by
  refine ⟨?_, ?_, ?_⟩
  · rw [register_all_eq, posts_and_wakes_ok k p pkts s _ halloc]
    simp
  · rw [register_all_eq, posts_and_wakes_ok k p pkts s _ halloc]
  · intro w t rest msg s1 hw
    rw [post_and_wake_ok k p msg s1 w halloc, hw]
    simp

theorem posts_wake_waiters_in_fifo_order_witness :
    (posts_and_wakes (granting_kernel 0) 0 [msg_of_request post_one, msg_of_request post_two]
        (idle_server, register_all [11, 12, 13])).2.woken = [11, 12] :=
  (posts_wake_waiters_in_fifo_order (granting_kernel 0) 0
    [msg_of_request post_one, msg_of_request post_two] idle_server [11, 12, 13] rfl).1

/-! ### Access rights, continued -/

theorem lor_ne_zero_right (x y : Nat) (h : y ≠ 0) : x ||| y ≠ 0 := by
  intro h0
  apply h
  apply Nat.eq_of_testBit_eq
  intro i
  have := congrArg (fun n => n.testBit i) h0
  simp only [Nat.testBit_or, Nat.zero_testBit, Bool.or_eq_false_iff] at this
  rw [this.2, Nat.zero_testBit]

theorem completion_map_access_modify (obj : object) (a : Nat) :
    completion_map_access obj a &&& IO_COMPLETION_MODIFY_STATE
      = (a &&& IO_COMPLETION_MODIFY_STATE) |||
          (if a &&& GENERIC_ALL ≠ 0 then IO_COMPLETION_MODIFY_STATE else 0) := by
  rw [completion_map_access_eq]
  unfold expanded_access
  have hm : uint_not (GENERIC_READ ||| GENERIC_WRITE ||| GENERIC_EXECUTE ||| GENERIC_ALL)
      &&& IO_COMPLETION_MODIFY_STATE = IO_COMPLETION_MODIFY_STATE := by decide
  have c1 : (STANDARD_RIGHTS_READ ||| SYNCHRONIZE ||| IO_COMPLETION_QUERY_STATE)
      &&& IO_COMPLETION_MODIFY_STATE = 0 := by decide
  have c2 : STANDARD_RIGHTS_WRITE &&& IO_COMPLETION_MODIFY_STATE = 0 := by decide
  have c3 : STANDARD_RIGHTS_EXECUTE &&& IO_COMPLETION_MODIFY_STATE = 0 := by decide
  have c4 : (STANDARD_RIGHTS_ALL ||| IO_COMPLETION_ALL_ACCESS) &&& IO_COMPLETION_MODIFY_STATE
      = IO_COMPLETION_MODIFY_STATE := by decide
  simp only [Nat.and_distrib_right, Nat.and_assoc, hm]
  by_cases hr : a &&& GENERIC_READ = 0 <;> by_cases hwr : a &&& GENERIC_WRITE = 0 <;>
    by_cases hx : a &&& GENERIC_EXECUTE = 0 <;> by_cases hal : a &&& GENERIC_ALL = 0 <;>
    simp only [hr, hwr, hx, hal, ne_eq, not_true_eq_false, not_false_eq_true, if_true, if_false,
      c1, c2, c3, c4, Nat.or_zero, Nat.zero_and]

theorem completion_map_access_fixed (obj : object) (y : Nat)
    (hy : y &&& uint_not (GENERIC_READ ||| GENERIC_WRITE ||| GENERIC_EXECUTE ||| GENERIC_ALL) = y) :
    completion_map_access obj y = y := by
  have hg : ∀ g, uint_not (GENERIC_READ ||| GENERIC_WRITE ||| GENERIC_EXECUTE ||| GENERIC_ALL)
      &&& g = 0 → y &&& g = 0 := by
    intro g h
    rw [← hy, Nat.and_assoc, h]
    exact Nat.and_zero _
  have h1 := hg GENERIC_READ (by decide)
  have h2 := hg GENERIC_WRITE (by decide)
  have h3 := hg GENERIC_EXECUTE (by decide)
  have h4 := hg GENERIC_ALL (by decide)
  unfold completion_map_access
  simp only [h1, h2, h3, h4, ne_eq, not_true_eq_false, if_false]
  exact hy

theorem completion_map_access_masked (obj : object) (a : Nat) :
    completion_map_access obj a &&&
        uint_not (GENERIC_READ ||| GENERIC_WRITE ||| GENERIC_EXECUTE ||| GENERIC_ALL)
      = completion_map_access obj a := by
  unfold completion_map_access
  simp only [Nat.and_assoc, Nat.and_self]

theorem no_generic_masked (a : Nat) (ha : a < UINT_RANGE)
    (hg : a &&& (GENERIC_READ ||| GENERIC_WRITE ||| GENERIC_EXECUTE ||| GENERIC_ALL) = 0) :
    a &&& uint_not (GENERIC_READ ||| GENERIC_WRITE ||| GENERIC_EXECUTE ||| GENERIC_ALL) = a := by
  apply Nat.eq_of_testBit_eq
  intro i
  rw [land_generic_mask_testBit a i ha]
  have hb := congrArg (fun n => n.testBit i) hg
  simp only [Nat.testBit_and, Nat.zero_testBit] at hb
  by_cases h : i = 28 ∨ i = 29 ∨ i = 30 ∨ i = 31
  · have hgi : (GENERIC_READ ||| GENERIC_WRITE ||| GENERIC_EXECUTE ||| GENERIC_ALL).testBit i
        = true := by
      rcases h with h | h | h | h <;> subst h <;> decide
    rw [hgi, Bool.and_true] at hb
    simp [hb]
  · have : ¬ i = 28 ∧ ¬ i = 29 ∧ ¬ i = 30 ∧ ¬ i = 31 := by omega
    simp [this]

/-! ### The ledger of a port -/

theorem ledger_step_balanced (k : kernel) (handle p : Nat) (op : port_request) (l : ledger)
    (halloc : k.mem_alloc = alloc_result.ok)
    (hmod : k.get_handle_obj handle IO_COMPLETION_MODIFY_STATE = Except.ok p)
    (hqry : k.get_handle_obj handle IO_COMPLETION_QUERY_STATE = Except.ok p)
    (h : l.posted.map reply_of_msg = l.removed ++ (l.state.mem p).queue.map reply_of_msg) :
    (ledger_step k handle op l).posted.map reply_of_msg
      = (ledger_step k handle op l).removed ++
          ((ledger_step k handle op l).state.mem p).queue.map reply_of_msg := by
  cases op with
  | post ckey cvalue status information =>
    simp only [ledger_step]
    rw [req_add_completion_ok k _ (clear_error l.state) p hmod halloc]
    simp [clear_error, set_error, msg_of_request, h]
  | remove =>
    simp only [ledger_step]
    cases hq : (l.state.mem p).queue with
    | nil =>
      rw [req_remove_completion_empty k { handle := handle } _ (clear_error l.state) p hmod
        (by simpa [clear_error, set_error] using hq)]
      simp [clear_error, set_error, h, hq]
    | cons msg rest =>
      rw [req_remove_completion_cons k { handle := handle } _ (clear_error l.state) p msg rest
        hmod (by simpa [clear_error, set_error] using hq)]
      have hne : STATUS_SUCCESS ≠ STATUS_PENDING := by decide
      simp [clear_error, set_error, h, hq, hne]
  | query =>
    simp only [ledger_step]
    rw [req_query_completion_ok k { handle := handle } _ (clear_error l.state) p hqry]
    simpa [clear_error, set_error] using h

theorem ledger_run_balanced (k : kernel) (handle p : Nat) (ops : List port_request) (l : ledger)
    (halloc : k.mem_alloc = alloc_result.ok)
    (hmod : k.get_handle_obj handle IO_COMPLETION_MODIFY_STATE = Except.ok p)
    (hqry : k.get_handle_obj handle IO_COMPLETION_QUERY_STATE = Except.ok p)
    (h : l.posted.map reply_of_msg = l.removed ++ (l.state.mem p).queue.map reply_of_msg) :
    (ledger_run k handle ops l).posted.map reply_of_msg
      = (ledger_run k handle ops l).removed ++
          ((ledger_run k handle ops l).state.mem p).queue.map reply_of_msg := by
  induction ops generalizing l with
  | nil => exact h
  | cons op rest ih =>
    exact ih _ (ledger_step_balanced k handle p op l halloc hmod hqry h)

theorem reply_of_msg_injective : Function.Injective reply_of_msg := by
  intro a b h
  cases a
  cases b
  simp only [reply_of_msg, remove_completion_reply.mk.injEq] at h
  obtain ⟨h1, h2, h3, h4⟩ := h
  subst h1 h2 h3 h4
  rfl

/-- C21: for every interleaving of successful Posts, Removes and Queries on a port
starting from its fresh creation, the packets posted so far, each by its four
fields, are the packets that Removes have replied so far followed by the
packets now in the queue, in this order: no packet is lost, duplicated,
reordered or altered between Post and Remove, and the packets handed out are
an initial part of the packets posted, each once. -/
theorem posted_is_removed_then_queued (kc k : kernel) (root : Option Nat) (name : List Nat)
    (attr concurrent : Nat) (s0 : server) (p e handle : Nat) (ops : List port_request)
    (hdir : kc.create_named_object_dir root name attr = (some p, e))
    (hnew : e ≠ STATUS_OBJECT_NAME_EXISTS)
    (halloc : k.mem_alloc = alloc_result.ok)
    (hmod : k.get_handle_obj handle IO_COMPLETION_MODIFY_STATE = Except.ok p)
    (hqry : k.get_handle_obj handle IO_COMPLETION_QUERY_STATE = Except.ok p) :
    (ledger_run k handle ops
        { posted := [], removed := [],
          state := (create_completion kc root name attr concurrent s0).2 }).posted.map
        reply_of_msg
      = (ledger_run k handle ops
          { posted := [], removed := [],
            state := (create_completion kc root name attr concurrent s0).2 }).removed ++
        ((ledger_run k handle ops
          { posted := [], removed := [],
            state := (create_completion kc root name attr concurrent s0).2 }).state.mem
          p).queue.map reply_of_msg ∧
    (ledger_run k handle ops
        { posted := [], removed := [],
          state := (create_completion kc root name attr concurrent s0).2 }).removed
      = ((ledger_run k handle ops
          { posted := [], removed := [],
            state := (create_completion kc root name attr concurrent s0).2 }).posted.take
          (ledger_run k handle ops
            { posted := [], removed := [],
              state := (create_completion kc root name attr concurrent s0).2 }).removed.length).map
          reply_of_msg ∧
    ((ledger_run k handle ops
        { posted := [], removed := [],
          state := (create_completion kc root name attr concurrent s0).2 }).state.mem p).queue
      = (ledger_run k handle ops
          { posted := [], removed := [],
            state := (create_completion kc root name attr concurrent s0).2 }).posted.drop
          (ledger_run k handle ops
            { posted := [], removed := [],
              state := (create_completion kc root name attr concurrent s0).2 }).removed.length := by
  have hbal := ledger_run_balanced k handle p ops
    { posted := [], removed := [],
      state := (create_completion kc root name attr concurrent s0).2 } halloc hmod hqry
    (by
      rw [create_completion_fresh kc root name attr concurrent s0 p e hdir hnew]
      simp)
  generalize ledger_run k handle ops
    { posted := [], removed := [],
      state := (create_completion kc root name attr concurrent s0).2 } = l at hbal
  refine ⟨hbal, ?_, ?_⟩
  · have := congrArg (List.take l.removed.length) hbal
    rw [List.take_left, ← List.map_take] at this
    exact this.symm
  · have := congrArg (List.drop l.removed.length) hbal
    rw [List.drop_left, ← List.map_drop] at this
    exact (List.map_injective_iff.mpr reply_of_msg_injective this).symm

theorem posted_is_removed_then_queued_witness :
    (ledger_run (granting_kernel 0) 4
        [port_request.remove, port_request.post 1 100 0 10, port_request.post 2 200 0 20,
         port_request.query, port_request.remove]
        { posted := [], removed := [],
          state := (create_completion (granting_kernel 0) none [] 0 0 idle_server).2 }).removed
      = [{ ckey := 1, cvalue := 100, status := 0, information := 10 }] :=
  (posted_is_removed_then_queued (granting_kernel 0) (granting_kernel 0) none [] 0 0
    idle_server 0 0 4
    [port_request.remove, port_request.post 1 100 0 10, port_request.post 2 200 0 20,
     port_request.query, port_request.remove]
    rfl (by decide) rfl rfl rfl).2.1

/-! ### Level triggering -/

theorem completion_signaled_iff (c : uk_completion) :
    completion_signaled c = decide (0 < c.queue.length) := by
  unfold completion_signaled list_empty
  cases c.queue <;> simp

/-- C22: the port is level-triggered.  In every state (a reachable one in
particular) whose queue holds `n ≥ 1` packets, after one successful Remove
`completion_signaled` is true if `n ≥ 2` and false if `n = 1`; over repeated
Removes it stays true while packets remain and is false from the Remove that
takes the last packet. -/
theorem signaled_until_last_packet_removed (k : kernel) (req : remove_completion_request)
    (reply : remove_completion_reply) (s : server) (p j : Nat)
    (hobj : k.get_handle_obj req.handle IO_COMPLETION_MODIFY_STATE = Except.ok p)
    (hn : 1 ≤ (s.mem p).queue.length)
    (hj : j ≤ (s.mem p).queue.length) :
    completion_signaled (s.mem p) = true ∧
    (2 ≤ (s.mem p).queue.length →
      completion_signaled ((req_remove_completion k req reply s).2.mem p) = true) ∧
    ((s.mem p).queue.length = 1 →
      completion_signaled ((req_remove_completion k req reply s).2.mem p) = false) ∧
    completion_signaled ((remove_many k req reply j s).2.mem p)
      = decide (j < (s.mem p).queue.length) := by
  have hone : ((req_remove_completion k req reply s).2.mem p).queue = (s.mem p).queue.drop 1 :=
    (remove_many_spec k req reply p hobj 1 s hn).2.1
  refine ⟨?_, ?_, ?_, ?_⟩
  · rw [completion_signaled_iff]
    exact decide_eq_true hn
  · intro h2
    rw [completion_signaled_iff, hone, List.length_drop]
    exact decide_eq_true (by omega)
  · intro h1
    rw [completion_signaled_iff, hone, List.length_drop]
    exact decide_eq_false (by omega)
  · rw [completion_signaled_iff, (remove_many_spec k req reply p hobj j s hj).2.1,
      List.length_drop]
    by_cases h : j < (s.mem p).queue.length
    · rw [decide_eq_true h]
      exact decide_eq_true (by omega)
    · rw [decide_eq_false h]
      exact decide_eq_false (by omega)

theorem signaled_until_last_packet_removed_witness :
    completion_signaled
        ((remove_many (granting_kernel 0) { handle := 4 }
          { ckey := 0, cvalue := 0, information := 0, status := 0 } 2
          { mem := fun _ => { queue := [msg_of_request post_one, msg_of_request post_two],
                              depth := 2 },
            error := 0, trace := [] }).2.mem 0)
      = decide (2 < 2) :=
  (signaled_until_last_packet_removed (granting_kernel 0) { handle := 4 }
    { ckey := 0, cvalue := 0, information := 0, status := 0 }
    { mem := fun _ => { queue := [msg_of_request post_one, msg_of_request post_two],
                        depth := 2 },
      error := 0, trace := [] } 0 2 rfl (by decide) (by decide)).2.2.2

/-- C23: the concurrency hint is never enforced.  For every two hints `c1` and
`c2`, all other inputs being equal, `create_completion` and the
CreateCompletion handler give the same result and the same state, and every
sequence of requests run after the creation gives the same replies, the same
statuses and the same final state. -/
theorem concurrent_hint_has_no_effect (k : kernel) (root : Option Nat) (name : List Nat)
    (attr c1 c2 : Nat) (s : server) (req : create_completion_request)
    (reply : create_completion_reply) (ops : List (kernel × request)) :
    create_completion k root name attr c1 s = create_completion k root name attr c2 s ∧
    req_create_completion k { req with concurrent := c1 } reply s
      = req_create_completion k { req with concurrent := c2 } reply s ∧
    run_responses ops (create_completion k root name attr c1 s).2
      = run_responses ops (create_completion k root name attr c2 s).2 ∧
    run_responses ops (req_create_completion k { req with concurrent := c1 } reply s).2
      = run_responses ops (req_create_completion k { req with concurrent := c2 } reply s).2 ∧
    run ops (create_completion k root name attr c1 s).2
      = run ops (create_completion k root name attr c2 s).2 := by
  have h1 : create_completion k root name attr c1 s = create_completion k root name attr c2 s :=
    create_completion_concurrent k root name attr c1 c2 s
  have h2 : req_create_completion k { req with concurrent := c1 } reply s
      = req_create_completion k { req with concurrent := c2 } reply s := rfl
  exact ⟨h1, h2, by rw [h1], by rw [h2], by rw [h1]⟩

/-- C24: with the Windows values of the constants, for every access mask `a` the
result of `completion_map_access` contains `IO_COMPLETION_MODIFY_STATE` if and
only if `a` contains `GENERIC_ALL` or `IO_COMPLETION_MODIFY_STATE` itself; in
particular `GENERIC_WRITE`, alone or combined with `GENERIC_READ` and
`GENERIC_EXECUTE`, does not give the right that AddCompletion and
RemoveCompletion ask for. -/
theorem modify_state_needs_generic_all (obj : object) (a : Nat) :
    (IO_COMPLETION_MODIFY_STATE = 0x2 ∧ IO_COMPLETION_QUERY_STATE = 0x1 ∧
      IO_COMPLETION_ALL_ACCESS = 0x1F0003 ∧ STANDARD_RIGHTS_READ = 0x20000 ∧
      STANDARD_RIGHTS_WRITE = 0x20000 ∧ STANDARD_RIGHTS_EXECUTE = 0x20000 ∧
      SYNCHRONIZE = 0x100000) ∧
    (completion_map_access obj a &&& IO_COMPLETION_MODIFY_STATE ≠ 0 ↔
      (a &&& GENERIC_ALL ≠ 0 ∨ a &&& IO_COMPLETION_MODIFY_STATE ≠ 0)) ∧
    completion_map_access obj GENERIC_WRITE &&& IO_COMPLETION_MODIFY_STATE = 0 ∧
    completion_map_access obj (GENERIC_WRITE ||| GENERIC_READ) &&& IO_COMPLETION_MODIFY_STATE
      = 0 ∧
    completion_map_access obj (GENERIC_WRITE ||| GENERIC_EXECUTE) &&& IO_COMPLETION_MODIFY_STATE
      = 0 ∧
    completion_map_access obj (GENERIC_WRITE ||| GENERIC_READ ||| GENERIC_EXECUTE)
        &&& IO_COMPLETION_MODIFY_STATE = 0 := by
  refine ⟨by decide, ?_, ?_, ?_, ?_, ?_⟩
  rotate_left
  · rw [completion_map_access_modify]; decide
  · rw [completion_map_access_modify]; decide
  · rw [completion_map_access_modify]; decide
  · rw [completion_map_access_modify]; decide
  rw [completion_map_access_modify]
  by_cases hal : a &&& GENERIC_ALL = 0
  · simp [hal]
  · simp only [hal, ne_eq, not_false_eq_true, if_true, true_or, iff_true]
    exact lor_ne_zero_right _ _ (by decide)

/-! ### Results of the handlers of CreateCompletion and OpenCompletion -/

theorem req_create_completion_root_error (k : kernel) (req : create_completion_request)
    (reply : create_completion_reply) (s : server) (e : Nat)
    (hroot : root_of_request k req.rootdir = Except.error e) :
    req_create_completion k req reply s =
      ({ handle := 0 }, { mem := s.mem, error := e, trace := s.trace }) := by
  unfold root_of_request at hroot
  unfold req_create_completion
  simp only [hroot]
  rfl

theorem req_open_completion_root_error (k : kernel) (req : open_completion_request)
    (reply : open_completion_reply) (s : server) (e : Nat)
    (hroot : root_of_request k req.rootdir = Except.error e) :
    req_open_completion k req reply s =
      ({ handle := 0 }, { mem := s.mem, error := e, trace := s.trace }) := by
  unfold root_of_request at hroot
  unfold req_open_completion
  simp only [hroot]
  rfl

theorem req_create_completion_result (k : kernel) (req : create_completion_request)
    (reply : create_completion_reply) (s : server) (root : Option Nat)
    (hroot : root_of_request k req.rootdir = Except.ok root) :
    req_create_completion k req reply s =
      match create_completion k root req.name req.attributes req.concurrent s with
      | (some p, s1) =>
        match k.alloc_handle p req.access req.attributes with
        | Except.ok h =>
          ({ handle := h }, release_root root (release_object (object.completion p) s1))
        | Except.error e =>
          ({ handle := 0 },
            release_root root (release_object (object.completion p) (set_error e s1)))
      | (none, s1) => ({ handle := 0 }, release_root root s1) := by
  unfold root_of_request at hroot
  unfold req_create_completion
  simp only [hroot]
  rcases create_completion k root req.name req.attributes req.concurrent s with ⟨_ | p, s1⟩
  · cases root <;> rfl
  · dsimp only
    cases k.alloc_handle p req.access req.attributes <;> cases root <;> rfl

theorem req_open_completion_result (k : kernel) (req : open_completion_request)
    (reply : open_completion_reply) (s : server) (root : Option Nat)
    (hroot : root_of_request k req.rootdir = Except.ok root) :
    req_open_completion k req reply s =
      match k.open_object_dir root req.name req.attributes with
      | Except.ok p =>
        match k.alloc_handle p req.access req.attributes with
        | Except.ok h =>
          ({ handle := h }, release_root root (release_object (object.completion p) s))
        | Except.error e =>
          ({ handle := 0 },
            release_root root (release_object (object.completion p) (set_error e s)))
      | Except.error e => ({ handle := 0 }, release_root root (set_error e s)) := by
  unfold root_of_request at hroot
  unfold req_open_completion
  simp only [hroot]
  cases k.open_object_dir root req.name req.attributes with
  | error e => cases root <;> rfl
  | ok p =>
    dsimp only
    cases k.alloc_handle p req.access req.attributes <;> cases root <;> rfl

theorem root_of_request_error (k : kernel) (rootdir e : Nat) :
    root_of_request k rootdir = Except.error e ↔
      rootdir ≠ 0 ∧ k.get_directory_obj rootdir 0 = Except.error e := by
  unfold root_of_request
  by_cases h : rootdir = 0
  · simp [h]
  · cases hd : k.get_directory_obj rootdir 0 <;> simp [h]

theorem issued_append (s t : server) (evs : List event) (h : t.trace = s.trace ++ evs) :
    issued s t = evs := by
  unfold issued
  rw [h]
  simp

theorem release_root_trace (root : Option Nat) (s : server) :
    (release_root root s).trace =
      s.trace ++ (match root with
        | some dir => [event.release_object (object.directory dir)]
        | none => []) := by
  cases root <;> simp [release_root, release_object]

/-- C25: `completion_map_access` is idempotent, and on a 32-bit mask with no
generic bit set it is the identity. -/
theorem completion_map_access_idempotent (obj : object) (a b : Nat)
    (hb : b < UINT_RANGE)
    (hr : b &&& GENERIC_READ = 0) (hw : b &&& GENERIC_WRITE = 0)
    (hx : b &&& GENERIC_EXECUTE = 0) (hal : b &&& GENERIC_ALL = 0) :
    completion_map_access obj (completion_map_access obj a) = completion_map_access obj a ∧
    completion_map_access obj b = b := by
  refine ⟨completion_map_access_fixed obj _ (completion_map_access_masked obj a), ?_⟩
  apply completion_map_access_fixed
  apply no_generic_masked b hb
  simp only [Nat.and_or_distrib_left, hr, hw, hx, hal, Nat.or_zero]

theorem completion_map_access_idempotent_witness :
    completion_map_access (object.completion 0)
        (completion_map_access (object.completion 0) 0xC0000002)
      = completion_map_access (object.completion 0) 0xC0000002 ∧
    completion_map_access (object.completion 0) 0x00120003 = 0x00120003 :=
  completion_map_access_idempotent (object.completion 0) 0xC0000002 0x00120003
    (by decide) (by decide) (by decide) (by decide) (by decide)

/-- C26: CreateCompletion and OpenCompletion reply with handle 0 on every failure
path.  When a non-zero `rootdir` handle does not resolve to a directory the
handler returns with handle 0 and the status of that failure, whatever the
name directory would return, and no port nor call is touched; when the
directory returns no object the reply is 0 whatever `alloc_handle` would
return; and a non-zero reply handle is the handle that `alloc_handle` returned
for the port that the directory returned. -/
theorem failed_create_or_open_replies_zero (k : kernel) (creq : create_completion_request)
    (oreq : open_completion_request) (creply : create_completion_reply)
    (oreply : open_completion_reply) (s : server) :
    (∀ (k2 : kernel) (e : Nat), creq.rootdir ≠ 0 →
      k.get_directory_obj creq.rootdir 0 = Except.error e →
      k2.get_directory_obj creq.rootdir 0 = Except.error e →
      req_create_completion k creq creply s
          = ({ handle := 0 }, { mem := s.mem, error := e, trace := s.trace }) ∧
        req_create_completion k2 creq creply s = req_create_completion k creq creply s) ∧
    (∀ (k2 : kernel) (e : Nat), oreq.rootdir ≠ 0 →
      k.get_directory_obj oreq.rootdir 0 = Except.error e →
      k2.get_directory_obj oreq.rootdir 0 = Except.error e →
      req_open_completion k oreq oreply s
          = ({ handle := 0 }, { mem := s.mem, error := e, trace := s.trace }) ∧
        req_open_completion k2 oreq oreply s = req_open_completion k oreq oreply s) ∧
    (∀ (root : Option Nat) (s1 : server),
      root_of_request k creq.rootdir = Except.ok root →
      create_completion k root creq.name creq.attributes creq.concurrent s = (none, s1) →
      req_create_completion k creq creply s = ({ handle := 0 }, release_root root s1)) ∧
    (∀ (root : Option Nat) (e : Nat),
      root_of_request k oreq.rootdir = Except.ok root →
      k.open_object_dir root oreq.name oreq.attributes = Except.error e →
      req_open_completion k oreq oreply s
        = ({ handle := 0 }, release_root root (set_error e s))) ∧
    ((req_create_completion k creq creply s).1.handle ≠ 0 →
      ∃ (root : Option Nat) (p : Nat) (s1 : server) (h : Nat),
        root_of_request k creq.rootdir = Except.ok root ∧
        create_completion k root creq.name creq.attributes creq.concurrent s = (some p, s1) ∧
        k.alloc_handle p creq.access creq.attributes = Except.ok h ∧
        (req_create_completion k creq creply s).1.handle = h) ∧
    ((req_open_completion k oreq oreply s).1.handle ≠ 0 →
      ∃ (root : Option Nat) (p h : Nat),
        root_of_request k oreq.rootdir = Except.ok root ∧
        k.open_object_dir root oreq.name oreq.attributes = Except.ok p ∧
        k.alloc_handle p oreq.access oreq.attributes = Except.ok h ∧
        (req_open_completion k oreq oreply s).1.handle = h) := by
  refine ⟨?_, ?_, ?_, ?_, ?_, ?_⟩
  · intro k2 e hnz h1 h2
    have r1 := req_create_completion_root_error k creq creply s e
      ((root_of_request_error k _ e).mpr ⟨hnz, h1⟩)
    have r2 := req_create_completion_root_error k2 creq creply s e
      ((root_of_request_error k2 _ e).mpr ⟨hnz, h2⟩)
    exact ⟨r1, r2.trans r1.symm⟩
  · intro k2 e hnz h1 h2
    have r1 := req_open_completion_root_error k oreq oreply s e
      ((root_of_request_error k _ e).mpr ⟨hnz, h1⟩)
    have r2 := req_open_completion_root_error k2 oreq oreply s e
      ((root_of_request_error k2 _ e).mpr ⟨hnz, h2⟩)
    exact ⟨r1, r2.trans r1.symm⟩
  · intro root s1 hroot hc
    rw [req_create_completion_result k creq creply s root hroot, hc]
  · intro root e hroot ho
    rw [req_open_completion_result k oreq oreply s root hroot, ho]
  · intro hnz
    cases hroot : root_of_request k creq.rootdir with
    | error e =>
      rw [req_create_completion_root_error k creq creply s e hroot] at hnz
      exact absurd rfl hnz
    | ok root =>
      rw [req_create_completion_result k creq creply s root hroot] at hnz ⊢
      rcases hc : create_completion k root creq.name creq.attributes creq.concurrent s
        with ⟨_ | p, s1⟩
      · rw [hc] at hnz
        exact absurd rfl hnz
      · rw [hc] at hnz
        dsimp only at hnz ⊢
        cases ha : k.alloc_handle p creq.access creq.attributes with
        | error e =>
          rw [ha] at hnz
          exact absurd rfl hnz
        | ok h => exact ⟨root, p, s1, h, rfl, hc, ha, by simp only [hc, ha]⟩
  · intro hnz
    cases hroot : root_of_request k oreq.rootdir with
    | error e =>
      rw [req_open_completion_root_error k oreq oreply s e hroot] at hnz
      exact absurd rfl hnz
    | ok root =>
      rw [req_open_completion_result k oreq oreply s root hroot] at hnz ⊢
      cases ho : k.open_object_dir root oreq.name oreq.attributes with
      | error e =>
        rw [ho] at hnz
        exact absurd rfl hnz
      | ok p =>
        rw [ho] at hnz
        dsimp only at hnz ⊢
        cases ha : k.alloc_handle p oreq.access oreq.attributes with
        | error e =>
          rw [ha] at hnz
          exact absurd rfl hnz
        | ok h => exact ⟨root, p, h, rfl, ho, ha, by simp only [ho, ha]⟩

theorem failed_create_or_open_replies_zero_witness :
    req_create_completion (table_kernel [])
        { access := 3, attributes := 0, concurrent := 1, rootdir := 12, name := [80] }
        { handle := 9 } idle_server
      = ({ handle := 0 },
          { mem := idle_server.mem, error := STATUS_INVALID_HANDLE, trace := idle_server.trace }) :=
  ((failed_create_or_open_replies_zero (table_kernel [])
    { access := 3, attributes := 0, concurrent := 1, rootdir := 12, name := [80] }
    { access := 3, attributes := 0, rootdir := 12, name := [80] }
    { handle := 9 } { handle := 9 } idle_server).1 (table_kernel []) STATUS_INVALID_HANDLE
    (by decide) rfl rfl).1

/-! ### References released by the handlers -/

theorem issued_self (s : server) (t : server) (h : t.trace = s.trace) :
    releases (issued s t) = [] := by
  rw [issued_append s t [] (by rw [h, List.append_nil])]
  rfl

theorem req_query_completion_depth (k : kernel) (req : query_completion_request)
    (reply : query_completion_reply) (s : server) (p : Nat)
    (hobj : k.get_handle_obj req.handle IO_COMPLETION_QUERY_STATE = Except.ok p) :
    (req_query_completion k req reply s).1.depth = (s.mem p).depth := by
  rw [req_query_completion_ok k req reply s p hobj]

/-- C28 (as amended): depth is an unsigned 32-bit counter incremented with
wrap-around and the queue length is not bounded by the code: in the state
reached from a fresh port by `2^32` successful Posts and no Remove, depth is 0
while the queue is non-empty, QueryCompletion replies 0, `completion_signaled`
is true and RemoveCompletion still returns a packet.  In every reachable state
whose queue holds fewer than `2^32` packets Remove does not wrap depth below
zero: with an empty queue it leaves depth as it is, and with a non-empty queue
depth is at least 1 and goes down by exactly one. -/
theorem depth_wraps_at_uint_range_only (kc k : kernel) (root : Option Nat) (name : List Nat)
    (attr concurrent : Nat) (s0 : server) (p e : Nat) (ops : List (kernel × request))
    (req : remove_completion_request) (reply : remove_completion_reply)
    (hdir : kc.create_named_object_dir root name attr = (some p, e))
    (hnew : e ≠ STATUS_OBJECT_NAME_EXISTS)
    (hobj : k.get_handle_obj req.handle IO_COMPLETION_MODIFY_STATE = Except.ok p)
    (hlen : ((run ops (create_completion kc root name attr concurrent s0).2).mem p).queue.length
      < UINT_RANGE) :
    (posts_server 4294967296 =
        run (List.replicate 4294967296 (granting_kernel 0, request.add_completion post_one))
          (create_completion (granting_kernel 0) none [] 0 0 idle_server).2 ∧
      ((posts_server 4294967296).mem 0).depth = 0 ∧
      ((posts_server 4294967296).mem 0).queue ≠ [] ∧
      (req_query_completion (granting_kernel 0) { handle := 4 } { depth := 7 }
        (posts_server 4294967296)).1.depth = 0 ∧
      completion_signaled ((posts_server 4294967296).mem 0) = true ∧
      (req_remove_completion (granting_kernel 0) { handle := 4 }
        { ckey := 0, cvalue := 0, information := 0, status := 0 } (posts_server 4294967296)).1
        = { ckey := 1, cvalue := 100, information := 10, status := 0 }) ∧
    (((run ops (create_completion kc root name attr concurrent s0).2).mem p).queue = [] →
      ((req_remove_completion k req reply
          (run ops (create_completion kc root name attr concurrent s0).2)).2.mem p).depth
        = ((run ops (create_completion kc root name attr concurrent s0).2).mem p).depth) ∧
    (((run ops (create_completion kc root name attr concurrent s0).2).mem p).queue ≠ [] →
      1 ≤ ((run ops (create_completion kc root name attr concurrent s0).2).mem p).depth ∧
      ((req_remove_completion k req reply
          (run ops (create_completion kc root name attr concurrent s0).2)).2.mem p).depth + 1
        = ((run ops (create_completion kc root name attr concurrent s0).2).mem p).depth) := by
  have hinv := reachable_depth_matches kc root name attr concurrent s0 p e ops hdir hnew
  have hsmall := depth_matches_small _ hinv hlen
  generalize run ops (create_completion kc root name attr concurrent s0).2 = s at hlen hsmall
  have hd : ((posts_server 4294967296).mem 0).depth = 0 :=
    (posts_server_depth 4294967296).trans (by decide)
  have hq : ((posts_server 4294967296).mem 0).queue
      = msg_of_request post_one :: List.replicate 4294967295 (msg_of_request post_one) :=
    (posts_server_queue 4294967296).trans
      (List.replicate_succ (msg_of_request post_one) 4294967295)
  refine ⟨⟨posts_server_reachable _, hd, ?_, ?_, ?_, ?_⟩, ?_, ?_⟩
  · rw [hq]
    exact List.cons_ne_nil _ _
  · exact (req_query_completion_depth (granting_kernel 0) { handle := 4 } { depth := 7 }
      (posts_server 4294967296) 0 rfl).trans hd
  · unfold completion_signaled list_empty
    rw [hq]
    rfl
  · rw [(req_remove_completion_cons_fields (granting_kernel 0) { handle := 4 }
      { ckey := 0, cvalue := 0, information := 0, status := 0 } (posts_server 4294967296) 0
      (msg_of_request post_one) (List.replicate 4294967295 (msg_of_request post_one)) rfl hq).1]
    rfl
  · intro hempty
    rw [req_remove_completion_empty k req reply s p hobj hempty]
  · intro hne
    cases hqs : (s.mem p).queue with
    | nil => exact absurd hqs hne
    | cons msg rest =>
      rw [hqs] at hsmall hlen
      simp only [List.length_cons] at hsmall hlen
      rw [(req_remove_completion_cons_fields k req reply s p msg rest hobj hqs).2.2.1, hsmall]
      unfold uint_decr UINT_RANGE at *
      omega

theorem depth_wraps_at_uint_range_only_witness :
    1 ≤ ((run [(granting_kernel 0, request.add_completion post_one)]
          (create_completion (granting_kernel 0) none [] 0 0 idle_server).2).mem 0).depth ∧
    ((req_remove_completion (granting_kernel 0) { handle := 4 }
        { ckey := 0, cvalue := 0, information := 0, status := 0 }
        (run [(granting_kernel 0, request.add_completion post_one)]
          (create_completion (granting_kernel 0) none [] 0 0 idle_server).2)).2.mem 0).depth + 1
      = ((run [(granting_kernel 0, request.add_completion post_one)]
          (create_completion (granting_kernel 0) none [] 0 0 idle_server).2).mem 0).depth :=
  (depth_wraps_at_uint_range_only (granting_kernel 0) (granting_kernel 0) none [] 0 0
    idle_server 0 0 [(granting_kernel 0, request.add_completion post_one)] { handle := 4 }
    { ckey := 0, cvalue := 0, information := 0, status := 0 } rfl (by decide) rfl
    (by decide)).2.2 (by decide)

/-- C28 fails as stated in its last part: in the state reached from a fresh port
by `2^32` successful Posts the queue is non-empty and depth is 0, and
RemoveCompletion, which decrements because the queue is non-empty, takes depth
below zero: it wraps from 0 to `2^32 - 1`. -/
theorem remove_wraps_depth_counterexample :
    posts_server 4294967296 =
      run (List.replicate 4294967296 (granting_kernel 0, request.add_completion post_one))
        (create_completion (granting_kernel 0) none [] 0 0 idle_server).2 ∧
    ((posts_server 4294967296).mem 0).queue ≠ [] ∧
    ((posts_server 4294967296).mem 0).depth = 0 ∧
    ((req_remove_completion (granting_kernel 0) { handle := 4 }
        { ckey := 0, cvalue := 0, information := 0, status := 0 }
        (posts_server 4294967296)).2.mem 0).depth = 4294967295 ∧
    ((posts_server 4294967296).mem 0).depth
      < ((req_remove_completion (granting_kernel 0) { handle := 4 }
          { ckey := 0, cvalue := 0, information := 0, status := 0 }
          (posts_server 4294967296)).2.mem 0).depth := by
  have hd : ((posts_server 4294967296).mem 0).depth = 0 :=
    (posts_server_depth 4294967296).trans (by decide)
  have hq : ((posts_server 4294967296).mem 0).queue
      = msg_of_request post_one :: List.replicate 4294967295 (msg_of_request post_one) :=
    (posts_server_queue 4294967296).trans
      (List.replicate_succ (msg_of_request post_one) 4294967295)
  have h3 := (req_remove_completion_cons_fields (granting_kernel 0) { handle := 4 }
    { ckey := 0, cvalue := 0, information := 0, status := 0 } (posts_server 4294967296) 0
    (msg_of_request post_one) (List.replicate 4294967295 (msg_of_request post_one)) rfl
    hq).2.2.1
  have hafter : ((req_remove_completion (granting_kernel 0) { handle := 4 }
      { ckey := 0, cvalue := 0, information := 0, status := 0 }
      (posts_server 4294967296)).2.mem 0).depth = 4294967295 := by
    rw [h3, hd]
    decide
  refine ⟨posts_server_reachable _, ?_, hd, hafter, ?_⟩
  · rw [hq]
    exact List.cons_ne_nil _ _
  · rw [hafter, hd]
    decide

end Completion
